import Mathlib

/-!
Verification of the NiceGui-App-Template logger lifecycle core.

This file shallowly embeds the program under verification:

* `src/nicegui_app_template/core/logger.py` — the `LoggerBootstrapper`
  lifecycle manager (`bootstrap`, `update_config`, `enable_file_logging`,
  `shutdown`) together with the relevant behaviour of the Python `logging`
  substrate (`Logger.debug`/`callHandlers`, `MemoryHandler`,
  `StreamHandler`, `RotatingFileHandler`);
* `src/nicegui_app_template/core/helpers.py` — `parse_size_to_bytes`;
* `src/nicegui_app_template/core/logger_resolver.py` —
  `resolve_log_config_from_state`;
* `src/nicegui_app_template/core/state.py` — the `log` sub-state consumed by
  the resolver.

Modelling conventions (each noted again at the definition it concerns):

* Python `int` log levels are modelled as `Nat` (the module's level
  constants CRITICAL=50, ERROR=40, WARNING=30, INFO=20, DEBUG=10, NOTSET=0
  are all non-negative, and the code only ever stores these).
* There is a single application logger: `update_config` forces the config
  name back to the original, so every operation targets the same logger
  object, and child loggers/the global root logger play no role in the
  claims under study.
* Durable storage is a map from file path to the sequence of records ever
  written to that path.  `RotatingFileHandler` rotation renames files on
  disk but loses no records at the sizes considered here; no claim in
  scope distinguishes the active file from its rotated backups (the
  repository's own tests read the main file and the backups concatenated).
* A formatted log line contains the record's message verbatim
  (`%(message)s` appears in both formatters), so "the file content contains
  message M" is modelled as "some record written to the path has message M".
-/

set_option autoImplicit false

namespace NApp

/-- Python logging level constants (logging.CRITICAL etc.). -/
def CRITICAL : Nat := 50
def ERROR : Nat := 40
def WARNING : Nat := 30
def INFO : Nat := 20
def DEBUG : Nat := 10
def NOTSET : Nat := 0

/-- A log record: its level number and its message text. -/
structure LogRecord where
  lvl : Nat
  msg : String
deriving DecidableEq, Repr

/-- State of the managed `logging.handlers.MemoryHandler` created by
`bootstrap` with `capacity=config.buffer_capacity`, `target=None`,
`flushLevel=logging.CRITICAL`.  `targetPath` is `None` until
`setTarget(file_handler)` is called in `enable_file_logging`; the target
file handler is identified by the path it writes to. -/
structure MemH where
  level : Nat
  capacity : Nat
  flushLevel : Nat := CRITICAL
  buffer : List LogRecord := []
  targetPath : Option String := none
deriving DecidableEq, Repr

/-- State of the managed console `logging.StreamHandler(sys.stdout)`.
`flushRaises`/`closeRaises` model a sink whose `flush()`/`close()` raises
an exception (e.g. a broken stream); the lifecycle code wraps those calls
in `try/except`. -/
structure ConH where
  level : Nat
  flushRaises : Bool := false
  closeRaises : Bool := false
deriving DecidableEq, Repr

/-- State of the managed `logging.handlers.RotatingFileHandler`. -/
structure FileH where
  level : Nat
  path : String
  maxBytes : Nat
  backupCount : Nat
  flushRaises : Bool := false
  closeRaises : Bool := false
deriving DecidableEq, Repr

/-- An entry of `logger.handlers`.  The code attaches at most one managed
handler of each kind; the handler's mutable state lives in the
corresponding slot of `Sys` (mirroring the `_ng_template_*` attributes,
which the code keeps in sync with list membership). -/
inductive HEntry
  | mem
  | con
  | file
deriving DecidableEq, Repr

/-- `LogConfig` from `core/logger.py` (frozen dataclass), with its source
defaults.  `file_path` is a `pathlib.Path` in the source, modelled as the
string it renders to. -/
structure LogConfig where
  name : String := "nicegui_app_template"
  level : Nat := INFO
  console : Bool := true
  buffer_capacity : Nat := 500
  file_path : String := "logs/app.log"
  rotate_max_bytes : Nat := 5 * 1024 * 1024
  rotate_backup_count : Nat := 3
deriving DecidableEq, Repr

/-- The complete observable state: the bootstrapper's stored `_config`, the
named logger's fields (`level`, `propagate`, `handlers`, the four
`_ng_template_*` attributes — `getattr(..., None)` makes "attribute set to
None" and "attribute absent" indistinguishable, hence `Option`), durable
file storage, and the process stdout stream. -/
structure Sys where
  config : LogConfig
  level : Nat := NOTSET
  propagate : Bool := true
  handlers : List HEntry := []
  memSlot : Option MemH := none
  conSlot : Option ConH := none
  fileSlot : Option FileH := none
  bootstrapped : Bool := false
  files : List (String × List LogRecord) := []
  stdout : List LogRecord := []
deriving DecidableEq, Repr

/-- A freshly created `LoggerBootstrapper(config)` over a logger name never
used before: the logger has no handlers, level NOTSET, and no
`_ng_template_*` attributes. -/
def freshSys (c : LogConfig) : Sys := { config := c }

/-- `Logger.getEffectiveLevel()`: a logger whose own level is NOTSET defers
to its ancestors; for the application root logger the only ancestor is the
Python root logger, whose default level is WARNING (30). -/
def effLevel (s : Sys) : Nat := if s.level = NOTSET then WARNING else s.level

/-- Append a record to the storage of path `p` (creating the file if it
does not exist yet). -/
def diskWrite (fs : List (String × List LogRecord)) (p : String) (r : LogRecord) :
    List (String × List LogRecord) :=
  match fs with
  | [] => [(p, [r])]
  | (q, rs) :: t => if q = p then (q, rs ++ [r]) :: t else (q, rs) :: diskWrite t p r

/-- Opening a `RotatingFileHandler` creates the file (the handler opens the
stream eagerly; `delay` is not passed). -/
def diskTouch (fs : List (String × List LogRecord)) (p : String) :
    List (String × List LogRecord) :=
  if fs.any (fun e => e.1 = p) then fs else fs ++ [(p, [])]

/-- The records ever written to path `p`. -/
def diskAt (fs : List (String × List LogRecord)) (p : String) : List LogRecord :=
  ((fs.find? (fun e => e.1 = p)).map (fun e => e.2)).getD []

/-- `MemoryHandler.flush()`: only when a target is set are the buffered
records handed to it (via `target.handle(record)`, which applies no level
filter) and the buffer cleared; with `target=None` it is a no-op.  Errors
raised while the target emits a record are routed through the substrate's
`Handler.handleError` and do not propagate. -/
def memFlushS (s : Sys) : Sys :=
  match s.memSlot with
  | some m =>
    match m.targetPath with
    | some p =>
        { s with
          files := m.buffer.foldl (fun fs r => diskWrite fs p r) s.files,
          memSlot := some { m with buffer := [] } }
    | none => s
  | none => s

/-- `MemoryHandler.emit(record)`: append to the buffer, then flush if
`shouldFlush` — the buffer has reached `capacity` or the record is at or
above `flushLevel`. -/
def handleMem (s : Sys) (r : LogRecord) : Sys :=
  match s.memSlot with
  | none => s
  | some m =>
    let s' := { s with memSlot := some { m with buffer := m.buffer ++ [r] } }
    if m.capacity ≤ m.buffer.length + 1 ∨ m.flushLevel ≤ r.lvl then memFlushS s' else s'

/-- `Logger.callHandlers` body for one handler: the record is handed to the
handler only if `record.levelno >= handler.level`. -/
def deliver1 (s : Sys) (h : HEntry) (r : LogRecord) : Sys :=
  match h with
  | .mem =>
    match s.memSlot with
    | some m => if m.level ≤ r.lvl then handleMem s r else s
    | none => s
  | .con =>
    match s.conSlot with
    | some c => if c.level ≤ r.lvl then { s with stdout := s.stdout ++ [r] } else s
    | none => s
  | .file =>
    match s.fileSlot with
    | some f => if f.level ≤ r.lvl then { s with files := diskWrite s.files f.path r } else s
    | none => s

/-- `Logger.callHandlers`: hand the record to each attached handler in
attachment order (`propagate` is False on the app root logger, so no
ancestor handlers are visited; `lastResort` only fires for records at
WARNING and above on a handlerless logger and writes to stderr, which no
claim observes). -/
def deliverAll (s : Sys) (r : LogRecord) : Sys :=
  s.handlers.foldl (fun a h => deliver1 a h r) s

/-- `logger.log(lvl, msg)` (the code only uses `logger.debug`): the record
is created and delivered only if the logger's effective level admits it. -/
def logEmit (s : Sys) (lvl : Nat) (msg : String) : Sys :=
  if effLevel s ≤ lvl then deliverAll s ⟨lvl, msg⟩ else s

/-- `StreamHandler.flush()` on the console sink: raises iff the underlying
stream raises; no observable state change otherwise. -/
def conFlushE (c : ConH) : Except Unit ConH :=
  if c.flushRaises then .error () else .ok c

/-- `StreamHandler.close()` on the console sink. -/
def conCloseE (c : ConH) : Except Unit ConH :=
  if c.closeRaises then .error () else .ok c

/-- `RotatingFileHandler.flush()`. -/
def fileFlushE (f : FileH) : Except Unit FileH :=
  if f.flushRaises then .error () else .ok f

/-- `RotatingFileHandler.close()`. -/
def fileCloseE (f : FileH) : Except Unit FileH :=
  if f.closeRaises then .error () else .ok f

/-- `LoggerBootstrapper.bootstrap()` (logger.py lines 250-301). -/
def bootstrap (s : Sys) : Sys :=
  let s := { s with propagate := false }
  if s.bootstrapped then
    logEmit s DEBUG "Logger bootstrap skipped - already initialized"
  else
    let s := { s with level := s.config.level }
    -- attach the buffer before any internal DEBUG message
    let s :=
      if s.handlers.contains .mem then s
      else
        { s with
          handlers := s.handlers ++ [.mem],
          memSlot := some { level := s.config.level, capacity := s.config.buffer_capacity } }
    let s := logEmit s DEBUG "Logger bootstrap started"
    let s :=
      if s.config.console then
        match s.conSlot with
        | some _ => s
        | none =>
          let s := { s with handlers := s.handlers ++ [.con],
                            conSlot := some { level := s.config.level } }
          logEmit s DEBUG "Console handler attached"
      else s
    let s := { s with bootstrapped := true }
    logEmit s DEBUG "Logger bootstrap completed"

/-!
`LoggerBootstrapper.update_config(config)` (logger.py lines 303-383),
translated block by block in the source's order.  The new config's name is
forced back to the original; the logger level is set unconditionally;
handler work happens only once bootstrapped.  The `removeHandler`/`close`
calls in the console-detach branch are wrapped in
`try/except Exception: pass` in the source — `conCloseE`'s result is
discarded accordingly.
-/

/-- update_config, lines 320-329: keep the original logger name. -/
def ucForceName (s : Sys) (cIn : LogConfig) : LogConfig :=
  if cIn.name ≠ s.config.name then { cIn with name := s.config.name } else cIn

/-- update_config, lines 331-336: store the config, re-pin propagate,
set the logger's severity level (this runs even before bootstrap). -/
def ucApplyBase (s : Sys) (c : LogConfig) : Sys :=
  { s with config := c, propagate := false, level := c.level }

/-- update_config, lines 343-345: align the buffer sink's level. -/
def ucMemLevel (s : Sys) (lvl : Nat) : Sys :=
  match s.memSlot with
  | some m => { s with memSlot := some { m with level := lvl } }
  | none => s

/-- update_config, lines 347-374: attach the console sink if newly
enabled, detach+close it (failures swallowed) if newly disabled. -/
def ucConsole (s : Sys) (c : LogConfig) : Sys :=
  let hasCon := s.conSlot.isSome
  let s :=
    if c.console ∧ ¬ hasCon then
      logEmit { s with handlers := s.handlers ++ [.con],
                       conSlot := some { level := c.level } }
        DEBUG "Console handler attached (reconfigured)"
    else s
  if ¬ c.console ∧ hasCon then
    let _closed := s.conSlot.map conCloseE   -- close failure swallowed
    logEmit { s with handlers := s.handlers.erase .con, conSlot := none }
      DEBUG "Console handler detached (reconfigured)"
  else s

/-- update_config, lines 376-381 (buffer-sink iteration of the final
pass): align the attached buffer sink's level. -/
def ucAlignMem (s : Sys) (lvl : Nat) : Sys :=
  if s.handlers.contains .mem then
    match s.memSlot with
    | some m => { s with memSlot := some { m with level := lvl } }
    | none => s
  else s

/-- update_config, lines 376-381 (console-sink iteration). -/
def ucAlignCon (s : Sys) (lvl : Nat) : Sys :=
  if s.handlers.contains .con then
    match s.conSlot with
    | some cc => { s with conSlot := some { cc with level := lvl } }
    | none => s
  else s

/-- update_config, lines 376-381 (file-sink iteration). -/
def ucAlignFile (s : Sys) (lvl : Nat) : Sys :=
  if s.handlers.contains .file then
    match s.fileSlot with
    | some f => { s with fileSlot := some { f with level := lvl } }
    | none => s
  else s

/-- update_config, lines 376-381: final pass over `logger.handlers`,
aligning every managed handler's level with the new configuration. -/
def ucAlignLevels (s : Sys) (lvl : Nat) : Sys :=
  ucAlignFile (ucAlignCon (ucAlignMem s lvl) lvl) lvl

/-- `LoggerBootstrapper.update_config(config)`: the blocks in source
order; handler blocks only run once bootstrapped (lines 338-341). -/
def update_config (s : Sys) (cIn : LogConfig) : Sys :=
  let c := ucForceName s cIn
  let s := ucApplyBase s c
  if ¬ s.bootstrapped then s
  else ucAlignLevels (ucConsole (ucMemLevel s c.level) c) c.level

/-- enable_file_logging, lines 429-439 (the
`if isinstance(memory_handler, MemoryHandler):` block): emit the handoff
diagnostic (which itself still reaches the buffer), `setTarget` the new
file handler (identified by its path), `flush()` the buffer into it,
then `removeHandler`+`close` the buffer sink (close failures swallowed)
and clear its attribute. -/
def eflHandoff (s : Sys) (target : String) : Sys :=
  match s.memSlot with
  | some _ =>
    let sE := logEmit s DEBUG "Flushing memory buffer to file"
    let sF :=
      match sE.memSlot with
      | some m => memFlushS { sE with memSlot := some { m with targetPath := some target } }
      | none => sE
    { sF with handlers := sF.handlers.erase .mem, memSlot := none }
  | none => s

/-- `LoggerBootstrapper.enable_file_logging(file_path=...)` (logger.py
lines 385-446).  `_ensure_parent_dir` performs directory creation only (no
observable effect in this model); `str(target_path.resolve())` in the final
diagnostic is modelled by the path itself.  The `memory_handler.close()`
call is wrapped in `try/except` in the source; `MemoryHandler.close`
re-flushes the (now empty) buffer and releases the handler. -/
def enable_file_logging (s : Sys) (fp : Option String) : Sys :=
  let s := { s with propagate := false }
  let s := if ¬ s.bootstrapped then bootstrap s else s
  if s.fileSlot.isSome then
    logEmit s DEBUG "File logging already enabled - skipping"
  else
    let target := fp.getD s.config.file_path
    let fh : FileH :=
      { level := s.config.level, path := target,
        maxBytes := s.config.rotate_max_bytes,
        backupCount := s.config.rotate_backup_count }
    let s := { s with files := diskTouch s.files target }
    let s := eflHandoff s target
    let s := { s with handlers := s.handlers ++ [.file], fileSlot := some fh }
    let s := logEmit s DEBUG "File handler attached"
    logEmit s DEBUG ("File logging enabled: " ++ target)

/-!
`LoggerBootstrapper.shutdown()` (logger.py lines 448-516), translated
block by block in the source's order (the source's comment-delimited
blocks become the step functions below).  Every
`flush`/`removeHandler`/`close` call is wrapped in
`try/except Exception: pass` in the source, so failing sinks (the
`*Raises` flags) neither propagate nor stop the remaining teardown; the
results of the fallible calls are discarded accordingly.
-/

/-- shutdown step 1 (lines 461-465): `propagate = False`, then the final
diagnostics are emitted before any handler is removed, so they land
wherever sinks currently route. -/
def shutdownDiagnostics (s : Sys) : Sys :=
  logEmit (logEmit { s with propagate := false } DEBUG "Logger shutdown started")
    DEBUG "Logger shutdown completed"

/-- shutdown step 2 (lines 467-478): flush each managed handler while it
is still attached; flush failures are swallowed.  A `MemoryHandler`
flush writes to its target if one is set (it is `None` at every
operation boundary); console/file flushes have no further observable
effect in this model. -/
def shutdownFlushManaged (s : Sys) : Sys :=
  let s := memFlushS s
  let _conF := s.conSlot.map conFlushE
  let _fileF := s.fileSlot.map fileFlushE
  s

/-- shutdown step 3 (lines 480-490): remove and close the buffer sink
first (failures swallowed), clearing its attribute. -/
def shutdownReleaseMem (s : Sys) : Sys :=
  match s.memSlot with
  | some _ => { s with handlers := s.handlers.erase .mem, memSlot := none }
  | none => s

/-- shutdown step 4 (lines 492-502): remove and close the console sink
(failures swallowed), clearing its attribute. -/
def shutdownReleaseCon (s : Sys) : Sys :=
  match s.conSlot with
  | some cc =>
    let _closed := conCloseE cc
    { s with handlers := s.handlers.erase .con, conSlot := none }
  | none => s

/-- shutdown step 5 (lines 504-514): remove and close the file sink last,
to keep the final diagnostics durable (failures swallowed). -/
def shutdownReleaseFile (s : Sys) : Sys :=
  match s.fileSlot with
  | some f =>
    let _closed := fileCloseE f
    { s with handlers := s.handlers.erase .file, fileSlot := none }
  | none => s

/-- `LoggerBootstrapper.shutdown()`: the five blocks in source order,
then (line 516) the bootstrapped flag is cleared. -/
def shutdown (s : Sys) : Sys :=
  { shutdownReleaseFile (shutdownReleaseCon (shutdownReleaseMem
      (shutdownFlushManaged (shutdownDiagnostics s)))) with bootstrapped := false }

/-- The buffer sink's current contents (empty when no buffer sink exists). -/
def bufferOf (s : Sys) : List LogRecord :=
  (s.memSlot.map (fun m => m.buffer)).getD []

/-- The messages ever written durably to path `p`. -/
def diskMsgs (s : Sys) (p : String) : List String :=
  (diskAt s.files p).map (fun r => r.msg)

/-!
Embedding of `core/helpers.py` — `parse_size_to_bytes`.

The source normalizes with `value.strip().upper()` and then applies
`re.match(r"^(\d+)\s*(B|KB|MB|GB)$", raw)`.  Python string semantics used
below:

* `str.strip()` removes surrounding whitespace; `\s` matches whitespace.
  Both follow `Py_UNICODE_ISSPACE`, whose ASCII portion is the ten
  characters `\t \n \x0b \x0c \r \x1c \x1d \x1e \x1f` and space — note it
  includes the separator controls U+001C–U+001F — all modelled by `pyWs`
  (it also covers Unicode spaces such as U+0085 and U+00A0, which no
  input considered here contains).
* `str.upper()` maps ASCII lowercase letters to uppercase and leaves the
  other characters considered here (ASCII non-letters and Arabic-Indic
  digits, which are caseless) unchanged.
* `\d` in a `str` pattern matches ANY Unicode decimal digit (category Nd),
  not only `0-9`, and `int()` accepts those digits.  `pyDigit`/`pyDigitVal`
  model the ASCII digits plus the Arabic-Indic digit block U+0660–U+0669 —
  a faithful fragment of Nd sufficient for the inputs studied here.
* The regex is anchored and its three parts use pairwise disjoint first
  characters (digits / whitespace / unit letters), so greedy maximal-munch
  matching is deterministic: the whole string must be a maximal digit run,
  a maximal whitespace run, and then exactly one unit token.
-/

/-- ASCII whitespace, as stripped by `str.strip()` and matched by `\s`:
space, `\t`, `\n`, `\r`, `\x0b`, `\x0c`, and the separator controls
`\x1c`–`\x1f`, which CPython also treats as whitespace. -/
def pyWs (c : Char) : Bool :=
  c = ' ' ∨ c = '\t' ∨ c = '\n' ∨ c = '\r' ∨ c = '\x0b' ∨ c = '\x0c' ∨
    c = '\x1c' ∨ c = '\x1d' ∨ c = '\x1e' ∨ c = '\x1f'

/-- ASCII digit. -/
def asciiDigit (c : Char) : Bool := '0' ≤ c ∧ c ≤ '9'

/-- A Unicode decimal digit as matched by Python's `\d` (category Nd),
restricted to the ASCII digits and the Arabic-Indic digit block. -/
def pyDigit (c : Char) : Bool :=
  asciiDigit c ∨ (0x660 ≤ c.toNat ∧ c.toNat ≤ 0x669)

/-- The decimal value of a digit accepted by `pyDigit` (as `int()` reads
it). -/
def pyDigitVal (c : Char) : Nat :=
  if asciiDigit c then c.toNat - 48 else c.toNat - 0x660

/-- `int()` on a run of decimal digits. -/
def digitsVal (ds : List Char) : Nat :=
  ds.foldl (fun a c => a * 10 + pyDigitVal c) 0

/-- `str.upper()` on one character, for the character domain considered
(ASCII plus caseless Arabic-Indic digits). -/
def asciiUpper (c : Char) : Char :=
  if 'a' ≤ c ∧ c ≤ 'z' then Char.ofNat (c.toNat - 32) else c

/-- `str.upper()`. -/
def pyUpper (cs : List Char) : List Char := cs.map asciiUpper

/-- `str.strip()`: drop surrounding whitespace. -/
def pyStrip (cs : List Char) : List Char :=
  ((cs.dropWhile pyWs).reverse.dropWhile pyWs).reverse

/-- The multiplier table of `parse_size_to_bytes`, keyed by the (already
uppercased) unit token; `none` for an unknown unit. -/
def unitMult (u : List Char) : Option Nat :=
  if u = ['B'] then some 1
  else if u = ['K', 'B'] then some 1024
  else if u = ['M', 'B'] then some (1024 ^ 2)
  else if u = ['G', 'B'] then some (1024 ^ 3)
  else none

/-- `re.match(r"^(\d+)\s*(B|KB|MB|GB)$", raw)` followed by
`int(group(1)) * multipliers[group(2)]`, on the normalized text. -/
def sizeMatch (raw : List Char) : Option Nat :=
  let ds := raw.takeWhile pyDigit
  let rest := (raw.dropWhile pyDigit).dropWhile pyWs
  if ds.isEmpty then none
  else (unitMult rest).map (fun mult => digitsVal ds * mult)

/-- `parse_size_to_bytes` from `core/helpers.py`: `None` is the Invalid
marker.  Total on strings — the source never raises for string input. -/
def parse_size_to_bytes (value : String) : Option Nat :=
  sizeMatch (pyUpper (pyStrip value.data))

/-!
Embedding of `core/state.py` (the `log` sub-state) and
`core/logger_resolver.py`.
-/

/-- `LogState` from `core/state.py`, with its source defaults. -/
structure LogState where
  path : String := "logs/app.log"
  level : String := "INFO"
  console : Bool := true
  buffer_capacity : Nat := 500
  rotation : String := "5 MB"
  retention : Nat := 3
deriving DecidableEq, Repr

/-- `AppState` from `core/state.py`, restricted to the sub-state the
resolver reads. -/
structure AppState where
  log : LogState := {}
deriving DecidableEq, Repr

/-- `DEFAULT_ROTATE_MAX_BYTES` from `core/logger_resolver.py`. -/
def DEFAULT_ROTATE_MAX_BYTES : Nat := 5 * 1024 * 1024

/-- `_LOG_LEVEL_MAP.get(key)` from `core/logger_resolver.py`. -/
def logLevelMap (k : String) : Option Nat :=
  if k = "CRITICAL" then some CRITICAL
  else if k = "ERROR" then some ERROR
  else if k = "WARNING" then some WARNING
  else if k = "WARN" then some WARNING
  else if k = "INFO" then some INFO
  else if k = "DEBUG" then some DEBUG
  else if k = "NOTSET" then some NOTSET
  else none

/-- `resolve_log_config_from_state` from `core/logger_resolver.py`.  Note
the rotation fallback in the source is
`parse_size_to_bytes(state.log.rotation) or DEFAULT_ROTATE_MAX_BYTES`:
Python's `or` treats both `None` and `0` as falsy, so a successful parse
of `0` also falls back to the default. -/
def resolve_log_config_from_state (state : AppState) : LogConfig :=
  let levelStr := String.mk (pyStrip (pyUpper state.log.level.data))
  let level := (logLevelMap levelStr).getD INFO
  let rotate_max_bytes :=
    match parse_size_to_bytes state.log.rotation with
    | some n => if n = 0 then DEFAULT_ROTATE_MAX_BYTES else n
    | none => DEFAULT_ROTATE_MAX_BYTES
  { name := "nicegui_app_template",
    level := level,
    console := state.log.console,
    file_path := state.log.path,
    rotate_max_bytes := rotate_max_bytes,
    rotate_backup_count := state.log.retention }

/-!
Auxiliary trace combinators and the spec-side size-string shape.
-/

/-- Call `bootstrap()` n times in a row. -/
def bootTimes : Nat → Sys → Sys
  | 0, s => s
  | n + 1, s => bootTimes n (bootstrap s)

/-- Emit a list of records through the logger, in order. -/
def emitAll (s : Sys) (rs : List LogRecord) : Sys :=
  rs.foldl (fun a r => logEmit a r.lvl r.msg) s

/-- Spec-side definition, from the claim's words (for the refinement
direction of C8): "optional surrounding whitespace, one or more ASCII
digits (no sign, no decimal point), optional whitespace, and a unit from
{B, KB, MB, GB} case-insensitively with nothing else trailing".
Case-insensitivity of the unit token is expressed by comparing its
uppercased form. -/
def specSizeShape (s : List Char) : Prop :=
  ∃ wl ds wm u wr : List Char,
    s = wl ++ ds ++ wm ++ u ++ wr ∧
    (∀ x ∈ wl, pyWs x) ∧ (∀ x ∈ wm, pyWs x) ∧ (∀ x ∈ wr, pyWs x) ∧
    ds ≠ [] ∧ (∀ x ∈ ds, asciiDigit x) ∧
    pyUpper u ∈ [['B'], ['K', 'B'], ['M', 'B'], ['G', 'B']]

/-- A string of ASCII characters (Python `str` is Unicode; the parts of
C8 about "every deviating string" are settled over ASCII strings, where
the model is exact). -/
def allAscii (s : String) : Prop := ∀ c ∈ s.data, c.toNat < 128

/-- The structural shape of the buffer sink's state: everything except the
buffered records themselves. -/
def memShape (o : Option MemH) : Option (Nat × Nat × Nat × Option String) :=
  o.map (fun m => (m.level, m.capacity, m.flushLevel, m.targetPath))

/-- A bootstrapped state whose console and file sinks raise from both
`flush()` and `close()`: concrete evidence that teardown is unaffected by
resource-release failures. -/
def raisySys : Sys :=
  { config := {}, level := DEBUG, propagate := false,
    handlers := [.mem, .con, .file],
    memSlot := some { level := DEBUG, capacity := 3 },
    conSlot := some { level := DEBUG, flushRaises := true, closeRaises := true },
    fileSlot := some { level := DEBUG, path := "logs/app.log", maxBytes := 100,
                       backupCount := 1, flushRaises := true, closeRaises := true },
    bootstrapped := true }

/-!
Structural preservation lemmas: delivering a record to the handlers never
changes the handler topology, only buffers/streams/files.
-/

lemma deliver1_struct (s : Sys) (h : HEntry) (r : LogRecord) :
    (deliver1 s h r).config = s.config ∧
    (deliver1 s h r).level = s.level ∧
    (deliver1 s h r).propagate = s.propagate ∧
    (deliver1 s h r).handlers = s.handlers ∧
    (deliver1 s h r).bootstrapped = s.bootstrapped ∧
    (deliver1 s h r).conSlot = s.conSlot ∧
    (deliver1 s h r).fileSlot = s.fileSlot ∧
    memShape (deliver1 s h r).memSlot = memShape s.memSlot := by
  cases h with
  | mem =>
    cases hm : s.memSlot with
    | none => simp [deliver1, hm]
    | some m =>
      by_cases hl : m.level ≤ r.lvl
      · by_cases hf : m.capacity ≤ m.buffer.length + 1 ∨ m.flushLevel ≤ r.lvl
        · cases ht : m.targetPath with
          | none => simp [deliver1, hm, hl, handleMem, hf, memFlushS, ht, memShape]
          | some p => simp [deliver1, hm, hl, handleMem, hf, memFlushS, ht, memShape]
        · simp [deliver1, hm, hl, handleMem, hf, memShape]
      · simp [deliver1, hm, hl]
  | con =>
    cases hc : s.conSlot with
    | none => simp [deliver1, hc]
    | some cc => by_cases hl : cc.level ≤ r.lvl <;> simp [deliver1, hc, hl]
  | file =>
    cases hf : s.fileSlot with
    | none => simp [deliver1, hf]
    | some f => by_cases hl : f.level ≤ r.lvl <;> simp [deliver1, hf, hl]

lemma foldDeliver_struct (r : LogRecord) (hs : List HEntry) : ∀ a : Sys,
    (hs.foldl (fun x h => deliver1 x h r) a).config = a.config ∧
    (hs.foldl (fun x h => deliver1 x h r) a).level = a.level ∧
    (hs.foldl (fun x h => deliver1 x h r) a).propagate = a.propagate ∧
    (hs.foldl (fun x h => deliver1 x h r) a).handlers = a.handlers ∧
    (hs.foldl (fun x h => deliver1 x h r) a).bootstrapped = a.bootstrapped ∧
    (hs.foldl (fun x h => deliver1 x h r) a).conSlot = a.conSlot ∧
    (hs.foldl (fun x h => deliver1 x h r) a).fileSlot = a.fileSlot ∧
    memShape (hs.foldl (fun x h => deliver1 x h r) a).memSlot = memShape a.memSlot := by
  induction hs with
  | nil => intro a; simp
  | cons h t ih =>
    intro a
    obtain ⟨d1, d2, d3, d4, d5, d6, d7, d8⟩ := deliver1_struct a h r
    obtain ⟨i1, i2, i3, i4, i5, i6, i7, i8⟩ := ih (deliver1 a h r)
    simp only [List.foldl_cons]
    exact ⟨i1.trans d1, i2.trans d2, i3.trans d3, i4.trans d4,
           i5.trans d5, i6.trans d6, i7.trans d7, i8.trans d8⟩

lemma deliverAll_struct (s : Sys) (r : LogRecord) :
    (deliverAll s r).config = s.config ∧
    (deliverAll s r).level = s.level ∧
    (deliverAll s r).propagate = s.propagate ∧
    (deliverAll s r).handlers = s.handlers ∧
    (deliverAll s r).bootstrapped = s.bootstrapped ∧
    (deliverAll s r).conSlot = s.conSlot ∧
    (deliverAll s r).fileSlot = s.fileSlot ∧
    memShape (deliverAll s r).memSlot = memShape s.memSlot :=
  foldDeliver_struct r s.handlers s

lemma logEmit_config (s : Sys) (lvl : Nat) (msg : String) :
    (logEmit s lvl msg).config = s.config := by
  unfold logEmit; split
  · exact (deliverAll_struct s ⟨lvl, msg⟩).1
  · rfl

lemma logEmit_level (s : Sys) (lvl : Nat) (msg : String) :
    (logEmit s lvl msg).level = s.level := by
  unfold logEmit; split
  · exact (deliverAll_struct s ⟨lvl, msg⟩).2.1
  · rfl

lemma logEmit_propagate (s : Sys) (lvl : Nat) (msg : String) :
    (logEmit s lvl msg).propagate = s.propagate := by
  unfold logEmit; split
  · exact (deliverAll_struct s ⟨lvl, msg⟩).2.2.1
  · rfl

lemma logEmit_handlers (s : Sys) (lvl : Nat) (msg : String) :
    (logEmit s lvl msg).handlers = s.handlers := by
  unfold logEmit; split
  · exact (deliverAll_struct s ⟨lvl, msg⟩).2.2.2.1
  · rfl

lemma logEmit_bootstrapped (s : Sys) (lvl : Nat) (msg : String) :
    (logEmit s lvl msg).bootstrapped = s.bootstrapped := by
  unfold logEmit; split
  · exact (deliverAll_struct s ⟨lvl, msg⟩).2.2.2.2.1
  · rfl

lemma logEmit_conSlot (s : Sys) (lvl : Nat) (msg : String) :
    (logEmit s lvl msg).conSlot = s.conSlot := by
  unfold logEmit; split
  · exact (deliverAll_struct s ⟨lvl, msg⟩).2.2.2.2.2.1
  · rfl

lemma logEmit_fileSlot (s : Sys) (lvl : Nat) (msg : String) :
    (logEmit s lvl msg).fileSlot = s.fileSlot := by
  unfold logEmit; split
  · exact (deliverAll_struct s ⟨lvl, msg⟩).2.2.2.2.2.2.1
  · rfl

lemma logEmit_memShape (s : Sys) (lvl : Nat) (msg : String) :
    memShape (logEmit s lvl msg).memSlot = memShape s.memSlot := by
  unfold logEmit; split
  · exact (deliverAll_struct s ⟨lvl, msg⟩).2.2.2.2.2.2.2
  · rfl

lemma logEmit_memIsSome (s : Sys) (lvl : Nat) (msg : String) :
    (logEmit s lvl msg).memSlot.isSome = s.memSlot.isSome := by
  have h := logEmit_memShape s lvl msg
  simpa [memShape, Option.isSome_map] using congrArg Option.isSome h

/-!
Durable-storage bookkeeping lemmas.
-/

lemma diskAt_write_self (fs : List (String × List LogRecord)) (p : String) (r : LogRecord) :
    diskAt (diskWrite fs p r) p = diskAt fs p ++ [r] := by
  induction fs with
  | nil => simp [diskWrite, diskAt]
  | cons e t ih =>
    obtain ⟨q, rs⟩ := e
    by_cases h : q = p
    · simp [diskWrite, h, diskAt]
    · simpa [diskWrite, h, diskAt, List.find?_cons] using ih

lemma diskAt_foldWrite (rs : List LogRecord) :
    ∀ (fs : List (String × List LogRecord)) (p : String),
      diskAt (rs.foldl (fun a r => diskWrite a p r) fs) p = diskAt fs p ++ rs := by
  induction rs with
  | nil => intro fs p; simp
  | cons r t ih =>
    intro fs p
    simp only [List.foldl_cons]
    rw [ih (diskWrite fs p r) p, diskAt_write_self]
    simp

lemma diskAt_touch (fs : List (String × List LogRecord)) (p : String) :
    diskAt (diskTouch fs p) p = diskAt fs p := by
  unfold diskTouch
  by_cases h : fs.any (fun e => e.1 = p)
  · simp [h]
  · have hnone : fs.find? (fun e => decide (e.1 = p)) = none := by
      rw [List.find?_eq_none]
      intro a ha
      intro hq
      exact h (List.any_eq_true.mpr ⟨a, ha, by simpa using hq⟩)
    simp only [if_neg h, diskAt, List.find?_append, hnone, Option.none_orElse]
    simp [List.find?]

/-!
Buffer-content lemmas: a delivered record appends to the buffer sink
(whose no-target flush discards nothing).
-/

lemma foldDeliver_memSlot (r : LogRecord) (hs : List HEntry) :
    ∀ (a : Sys) (m : MemH), a.memSlot = some m → m.targetPath = none →
      (hs.foldl (fun x h => deliver1 x h r) a).memSlot =
        some { m with buffer := m.buffer ++
          (if m.level ≤ r.lvl then List.replicate (hs.count .mem) r else []) } := by
  induction hs with
  | nil => intro a m hm ht; simp [hm]
  | cons h t ih =>
    intro a m hm ht
    cases h with
    | mem =>
      by_cases hl : m.level ≤ r.lvl
      · have hstep : (deliver1 a .mem r).memSlot = some { m with buffer := m.buffer ++ [r] } := by
          simp [deliver1, hm, hl, handleMem, memFlushS, ht]
        rw [List.foldl_cons, ih _ _ hstep (by simpa using ht)]
        simp [hl, List.count_cons_self, List.replicate_succ, List.append_assoc]
      · have hstep : deliver1 a .mem r = a := by simp [deliver1, hm, hl]
        rw [List.foldl_cons, hstep, ih a m hm ht]
        simp [hl]
    | con =>
      have hstep : (deliver1 a .con r).memSlot = a.memSlot := by
        cases hc : a.conSlot with
        | none => simp [deliver1, hc]
        | some cc => by_cases hl : cc.level ≤ r.lvl <;> simp [deliver1, hc, hl]
      rw [List.foldl_cons, ih _ m (hstep.trans hm) ht]
      have : (HEntry.con :: t).count .mem = t.count .mem :=
        List.count_cons_of_ne (by decide) t
      rw [this]
    | file =>
      have hstep : (deliver1 a .file r).memSlot = a.memSlot := by
        cases hf : a.fileSlot with
        | none => simp [deliver1, hf]
        | some f => by_cases hl : f.level ≤ r.lvl <;> simp [deliver1, hf, hl]
      rw [List.foldl_cons, ih _ m (hstep.trans hm) ht]
      have : (HEntry.file :: t).count .mem = t.count .mem :=
        List.count_cons_of_ne (by decide) t
      rw [this]

lemma logEmit_memSlot_buffer (s : Sys) (m : MemH) (lvl : Nat) (msg : String)
    (hm : s.memSlot = some m) (ht : m.targetPath = none)
    (hc : s.handlers.count .mem = 1) :
    (logEmit s lvl msg).memSlot =
      some { m with buffer := m.buffer ++
        (if effLevel s ≤ lvl ∧ m.level ≤ lvl then [⟨lvl, msg⟩] else []) } := by
  unfold logEmit
  by_cases he : effLevel s ≤ lvl
  · rw [if_pos he]
    unfold deliverAll
    rw [foldDeliver_memSlot ⟨lvl, msg⟩ s.handlers s m hm ht, hc]
    by_cases hl : m.level ≤ lvl <;> simp [he, hl]
  · rw [if_neg he]
    simp [hm, he]

/-!
Files are untouched by emission while no file sink is attached and the
buffer sink has no target.
-/

lemma deliver1_files_inert (a : Sys) (h : HEntry) (r : LogRecord)
    (hf : a.fileSlot = none)
    (ht : ∀ mm, a.memSlot = some mm → mm.targetPath = none) :
    (deliver1 a h r).files = a.files := by
  cases h with
  | mem =>
    cases hm : a.memSlot with
    | none => simp [deliver1, hm]
    | some m =>
      by_cases hl : m.level ≤ r.lvl
      · simp [deliver1, hm, hl, handleMem, memFlushS, ht m hm]
      · simp [deliver1, hm, hl]
  | con =>
    cases hc : a.conSlot with
    | none => simp [deliver1, hc]
    | some cc => by_cases hl : cc.level ≤ r.lvl <;> simp [deliver1, hc, hl]
  | file => simp [deliver1, hf]

lemma memShape_targetPath_none {o o' : Option MemH}
    (h : memShape o' = memShape o)
    (ht : ∀ mm, o = some mm → mm.targetPath = none) :
    ∀ mm', o' = some mm' → mm'.targetPath = none := by
  intro mm' hm'
  cases ho : o with
  | none => rw [hm', ho] at h; simp [memShape] at h
  | some mm =>
    rw [hm', ho] at h
    simp only [memShape, Option.map_some', Option.some.injEq, Prod.mk.injEq] at h
    rw [h.2.2.2, ht mm ho]

lemma foldDeliver_files_inert (r : LogRecord) (hs : List HEntry) :
    ∀ a : Sys, a.fileSlot = none →
      (∀ mm, a.memSlot = some mm → mm.targetPath = none) →
      (hs.foldl (fun x h => deliver1 x h r) a).files = a.files := by
  induction hs with
  | nil => intro a _ _; rfl
  | cons h t ih =>
    intro a hf ht
    obtain ⟨_, _, _, _, _, _, d7, d8⟩ := deliver1_struct a h r
    rw [List.foldl_cons,
        ih (deliver1 a h r) (d7.trans hf) (memShape_targetPath_none d8 ht),
        deliver1_files_inert a h r hf ht]

lemma logEmit_files_inert (s : Sys) (lvl : Nat) (msg : String)
    (hf : s.fileSlot = none)
    (ht : ∀ mm, s.memSlot = some mm → mm.targetPath = none) :
    (logEmit s lvl msg).files = s.files := by
  unfold logEmit
  split
  · exact foldDeliver_files_inert ⟨lvl, msg⟩ s.handlers s hf ht
  · rfl

/-!
Operation-level helper lemmas.
-/

lemma logEmit_memSlot_none (s : Sys) (lvl : Nat) (msg : String)
    (hm : s.memSlot = none) : (logEmit s lvl msg).memSlot = none := by
  have h := logEmit_memIsSome s lvl msg
  rw [hm] at h
  cases ho : (logEmit s lvl msg).memSlot with
  | none => rfl
  | some m => rw [ho] at h; simp at h

lemma bootstrap_when_bootstrapped (s : Sys) (hb : s.bootstrapped = true) :
    bootstrap s = logEmit { s with propagate := false } DEBUG
      "Logger bootstrap skipped - already initialized" := by
  simp [bootstrap, hb]

lemma boot_fresh_facts (c : LogConfig) :
    ∃ B O : List LogRecord,
      bootstrap (freshSys c) =
        { config := c, level := c.level, propagate := false,
          handlers := .mem :: (if c.console then [.con] else []),
          memSlot := some { level := c.level, capacity := c.buffer_capacity, buffer := B },
          conSlot := if c.console then some { level := c.level } else none,
          bootstrapped := true, stdout := O } := by
  by_cases hz : c.level = 0
  · cases hcon : c.console
    · refine ⟨[], [], ?_⟩
      simp [bootstrap, freshSys, logEmit, deliverAll, deliver1, handleMem, memFlushS,
            effLevel, NOTSET, DEBUG, WARNING, hz, hcon]
    · refine ⟨[], [], ?_⟩
      simp [bootstrap, freshSys, logEmit, deliverAll, deliver1, handleMem, memFlushS,
            effLevel, NOTSET, DEBUG, WARNING, hz, hcon]
  · by_cases h10 : c.level ≤ 10
    · cases hcon : c.console
      · refine ⟨[⟨DEBUG, "Logger bootstrap started"⟩, ⟨DEBUG, "Logger bootstrap completed"⟩],
               [], ?_⟩
        simp [bootstrap, freshSys, logEmit, deliverAll, deliver1, handleMem, memFlushS,
              effLevel, NOTSET, DEBUG, WARNING, hz, h10, hcon]
      · refine ⟨[⟨DEBUG, "Logger bootstrap started"⟩, ⟨DEBUG, "Console handler attached"⟩,
                 ⟨DEBUG, "Logger bootstrap completed"⟩],
               [⟨DEBUG, "Console handler attached"⟩, ⟨DEBUG, "Logger bootstrap completed"⟩], ?_⟩
        simp [bootstrap, freshSys, logEmit, deliverAll, deliver1, handleMem, memFlushS,
              effLevel, NOTSET, DEBUG, WARNING, hz, h10, hcon]
    · cases hcon : c.console
      · refine ⟨[], [], ?_⟩
        simp [bootstrap, freshSys, logEmit, deliverAll, deliver1, handleMem, memFlushS,
              effLevel, NOTSET, DEBUG, WARNING, hz, h10, hcon]
      · refine ⟨[], [], ?_⟩
        simp [bootstrap, freshSys, logEmit, deliverAll, deliver1, handleMem, memFlushS,
              effLevel, NOTSET, DEBUG, WARNING, hz, h10, hcon]

lemma memFlushS_struct (s : Sys) :
    (memFlushS s).config = s.config ∧
    (memFlushS s).level = s.level ∧
    (memFlushS s).propagate = s.propagate ∧
    (memFlushS s).handlers = s.handlers ∧
    (memFlushS s).bootstrapped = s.bootstrapped ∧
    (memFlushS s).conSlot = s.conSlot ∧
    (memFlushS s).fileSlot = s.fileSlot ∧
    (memFlushS s).stdout = s.stdout ∧
    (memFlushS s).memSlot.isSome = s.memSlot.isSome := by
  cases hm : s.memSlot with
  | none => simp [memFlushS, hm]
  | some m =>
    cases ht : m.targetPath with
    | none => simp [memFlushS, hm, ht]
    | some p => simp [memFlushS, hm, ht]

lemma memFlushS_config (s : Sys) : (memFlushS s).config = s.config :=
  (memFlushS_struct s).1

lemma memFlushS_level (s : Sys) : (memFlushS s).level = s.level :=
  (memFlushS_struct s).2.1

lemma memFlushS_propagate (s : Sys) : (memFlushS s).propagate = s.propagate :=
  (memFlushS_struct s).2.2.1

lemma memFlushS_handlers (s : Sys) : (memFlushS s).handlers = s.handlers :=
  (memFlushS_struct s).2.2.2.1

lemma memFlushS_bootstrapped (s : Sys) : (memFlushS s).bootstrapped = s.bootstrapped :=
  (memFlushS_struct s).2.2.2.2.1

lemma memFlushS_conSlot (s : Sys) : (memFlushS s).conSlot = s.conSlot :=
  (memFlushS_struct s).2.2.2.2.2.1

lemma memFlushS_fileSlot (s : Sys) : (memFlushS s).fileSlot = s.fileSlot :=
  (memFlushS_struct s).2.2.2.2.2.2.1

lemma memFlushS_stdout (s : Sys) : (memFlushS s).stdout = s.stdout :=
  (memFlushS_struct s).2.2.2.2.2.2.2.1

lemma memFlushS_noSlot (s : Sys) (hm : s.memSlot = none) : memFlushS s = s := by
  simp [memFlushS, hm]

lemma sflush_eq (s : Sys) : shutdownFlushManaged s = memFlushS s := rfl

lemma relMem_struct (s : Sys) :
    (shutdownReleaseMem s).memSlot = none ∧
    (shutdownReleaseMem s).conSlot = s.conSlot ∧
    (shutdownReleaseMem s).fileSlot = s.fileSlot ∧
    (shutdownReleaseMem s).config = s.config ∧
    (shutdownReleaseMem s).level = s.level ∧
    (shutdownReleaseMem s).propagate = s.propagate ∧
    (shutdownReleaseMem s).bootstrapped = s.bootstrapped ∧
    (shutdownReleaseMem s).files = s.files ∧
    (shutdownReleaseMem s).stdout = s.stdout := by
  cases hm : s.memSlot <;> simp [shutdownReleaseMem, hm]

lemma relCon_struct (s : Sys) :
    (shutdownReleaseCon s).conSlot = none ∧
    (shutdownReleaseCon s).memSlot = s.memSlot ∧
    (shutdownReleaseCon s).fileSlot = s.fileSlot ∧
    (shutdownReleaseCon s).config = s.config ∧
    (shutdownReleaseCon s).level = s.level ∧
    (shutdownReleaseCon s).propagate = s.propagate ∧
    (shutdownReleaseCon s).bootstrapped = s.bootstrapped ∧
    (shutdownReleaseCon s).files = s.files ∧
    (shutdownReleaseCon s).stdout = s.stdout := by
  cases hc : s.conSlot <;> simp [shutdownReleaseCon, hc]

lemma relFile_struct (s : Sys) :
    (shutdownReleaseFile s).fileSlot = none ∧
    (shutdownReleaseFile s).memSlot = s.memSlot ∧
    (shutdownReleaseFile s).conSlot = s.conSlot ∧
    (shutdownReleaseFile s).config = s.config ∧
    (shutdownReleaseFile s).level = s.level ∧
    (shutdownReleaseFile s).propagate = s.propagate ∧
    (shutdownReleaseFile s).bootstrapped = s.bootstrapped ∧
    (shutdownReleaseFile s).files = s.files ∧
    (shutdownReleaseFile s).stdout = s.stdout := by
  cases hf : s.fileSlot <;> simp [shutdownReleaseFile, hf]

lemma relMem_noSlot (s : Sys) (hm : s.memSlot = none) : shutdownReleaseMem s = s := by
  simp [shutdownReleaseMem, hm]

lemma relCon_noSlot (s : Sys) (hc : s.conSlot = none) : shutdownReleaseCon s = s := by
  simp [shutdownReleaseCon, hc]

lemma relFile_noSlot (s : Sys) (hf : s.fileSlot = none) : shutdownReleaseFile s = s := by
  simp [shutdownReleaseFile, hf]

lemma sdiag_propagate (s : Sys) : (shutdownDiagnostics s).propagate = false := by
  unfold shutdownDiagnostics
  rw [logEmit_propagate, logEmit_propagate]

lemma update_propagate_self (s : Sys) (h : s.propagate = false) :
    ({ s with propagate := false } : Sys) = s := by
  cases s with
  | mk c l p hs m co f b fi st =>
    dsimp only at h
    subst h
    rfl

lemma update_bootstrapped_self (s : Sys) (h : s.bootstrapped = false) :
    ({ s with bootstrapped := false } : Sys) = s := by
  cases s with
  | mk c l p hs m co f b fi st =>
    dsimp only at h
    subst h
    rfl

lemma deliver1_slotsNone (a : Sys) (h : HEntry) (r : LogRecord)
    (hm : a.memSlot = none) (hc : a.conSlot = none) (hf : a.fileSlot = none) :
    deliver1 a h r = a := by
  cases h <;> simp [deliver1, hm, hc, hf]

lemma deliverAll_slotsNone (s : Sys) (r : LogRecord)
    (hm : s.memSlot = none) (hc : s.conSlot = none) (hf : s.fileSlot = none) :
    deliverAll s r = s := by
  unfold deliverAll
  have h : ∀ hs : List HEntry, hs.foldl (fun a h => deliver1 a h r) s = s := by
    intro hs
    induction hs with
    | nil => rfl
    | cons h t ih => rw [List.foldl_cons, deliver1_slotsNone s h r hm hc hf, ih]
  exact h s.handlers

lemma logEmit_slotsNone (s : Sys) (lvl : Nat) (msg : String)
    (hm : s.memSlot = none) (hc : s.conSlot = none) (hf : s.fileSlot = none) :
    logEmit s lvl msg = s := by
  unfold logEmit
  split
  · exact deliverAll_slotsNone s ⟨lvl, msg⟩ hm hc hf
  · rfl

lemma shutdown_teardown (s : Sys) :
    (shutdown s).memSlot = none ∧
    (shutdown s).conSlot = none ∧
    (shutdown s).fileSlot = none ∧
    (shutdown s).bootstrapped = false ∧
    (shutdown s).propagate = false := by
  unfold shutdown
  obtain ⟨f1, f2, f3, _, _, f6, _, _, _⟩ :=
    relFile_struct (shutdownReleaseCon (shutdownReleaseMem
      (shutdownFlushManaged (shutdownDiagnostics s))))
  obtain ⟨c1, c2, _, _, _, c6, _, _, _⟩ :=
    relCon_struct (shutdownReleaseMem (shutdownFlushManaged (shutdownDiagnostics s)))
  obtain ⟨m1, _, _, _, _, m6, _, _, _⟩ :=
    relMem_struct (shutdownFlushManaged (shutdownDiagnostics s))
  obtain ⟨_, _, fl3, _, _, _, _, _, _⟩ :=
    memFlushS_struct (shutdownDiagnostics s)
  have fl3' : (shutdownFlushManaged (shutdownDiagnostics s)).propagate
      = (shutdownDiagnostics s).propagate := by rw [sflush_eq]; exact fl3
  refine ⟨?_, ?_, ?_, rfl, ?_⟩
  · simp [f2, c2, m1]
  · simp [f3, c1]
  · simp [f1]
  · simp [f6, c6, m6, fl3', sdiag_propagate]

lemma shutdown_idem (s : Sys) : shutdown (shutdown s) = shutdown s := by
  obtain ⟨hm, hc, hf, hb, hp⟩ := shutdown_teardown s
  have e1 : shutdownDiagnostics (shutdown s) = shutdown s := by
    unfold shutdownDiagnostics
    rw [update_propagate_self _ hp, logEmit_slotsNone _ _ _ hm hc hf,
        logEmit_slotsNone _ _ _ hm hc hf]
  show { shutdownReleaseFile (shutdownReleaseCon (shutdownReleaseMem
      (shutdownFlushManaged (shutdownDiagnostics (shutdown s))))) with
      bootstrapped := false } = shutdown s
  rw [e1, sflush_eq, memFlushS_noSlot _ hm, relMem_noSlot _ hm,
      relCon_noSlot _ hc, relFile_noSlot _ hf, update_bootstrapped_self _ hb]

lemma isSome_false_eq_none {α : Type} {o : Option α} (h : o.isSome = false) : o = none := by
  cases o <;> simp_all

lemma ucForceName_console (s : Sys) (cIn : LogConfig) :
    (ucForceName s cIn).console = cIn.console := by
  unfold ucForceName; split <;> rfl

lemma ucForceName_level (s : Sys) (cIn : LogConfig) :
    (ucForceName s cIn).level = cIn.level := by
  unfold ucForceName; split <;> rfl

lemma ucMemLevel_struct (s : Sys) (lvl : Nat) :
    (ucMemLevel s lvl).handlers = s.handlers ∧
    (ucMemLevel s lvl).conSlot = s.conSlot ∧
    (ucMemLevel s lvl).fileSlot = s.fileSlot ∧
    (ucMemLevel s lvl).bootstrapped = s.bootstrapped ∧
    (ucMemLevel s lvl).config = s.config ∧
    (ucMemLevel s lvl).level = s.level ∧
    (ucMemLevel s lvl).propagate = s.propagate ∧
    (ucMemLevel s lvl).files = s.files ∧
    (ucMemLevel s lvl).stdout = s.stdout ∧
    (ucMemLevel s lvl).memSlot.isSome = s.memSlot.isSome := by
  cases hm : s.memSlot <;> simp [ucMemLevel, hm]

lemma ucConsole_struct (s : Sys) (c : LogConfig) :
    (ucConsole s c).conSlot.isSome = c.console ∧
    (ucConsole s c).memSlot.isSome = s.memSlot.isSome ∧
    (ucConsole s c).fileSlot = s.fileSlot ∧
    (ucConsole s c).bootstrapped = s.bootstrapped ∧
    (ucConsole s c).config = s.config ∧
    (ucConsole s c).level = s.level ∧
    (ucConsole s c).handlers.count .mem = s.handlers.count .mem ∧
    (ucConsole s c).handlers.count .file = s.handlers.count .file := by
  cases hc : s.conSlot with
  | none =>
    by_cases hco : c.console
    · simp [ucConsole, hc, hco, logEmit_conSlot, logEmit_memIsSome, logEmit_fileSlot,
            logEmit_bootstrapped, logEmit_config, logEmit_level, logEmit_handlers,
            List.count_append, List.count_cons, List.count_nil]
    · simp [ucConsole, hc, hco]
  | some cc =>
    by_cases hco : c.console
    · simp [ucConsole, hc, hco]
    · simp [ucConsole, hc, hco, logEmit_conSlot, logEmit_memIsSome, logEmit_fileSlot,
            logEmit_bootstrapped, logEmit_config, logEmit_level, logEmit_handlers,
            List.count_erase_of_ne (by decide : (HEntry.mem ≠ HEntry.con)),
            List.count_erase_of_ne (by decide : (HEntry.file ≠ HEntry.con))]

lemma ucConsole_off (s : Sys) (c : LogConfig) (hco : c.console = false) :
    (ucConsole s c).conSlot = none := by
  cases hc : s.conSlot with
  | none => simp [ucConsole, hco, hc]
  | some cc => simp [ucConsole, hco, hc, logEmit_conSlot]

lemma ucAlignMem_struct (s : Sys) (lvl : Nat) :
    (ucAlignMem s lvl).handlers = s.handlers ∧
    (ucAlignMem s lvl).conSlot = s.conSlot ∧
    (ucAlignMem s lvl).memSlot.isSome = s.memSlot.isSome ∧
    (ucAlignMem s lvl).fileSlot = s.fileSlot ∧
    (ucAlignMem s lvl).bootstrapped = s.bootstrapped ∧
    (ucAlignMem s lvl).config = s.config ∧
    (ucAlignMem s lvl).files = s.files ∧
    (ucAlignMem s lvl).stdout = s.stdout ∧
    (ucAlignMem s lvl).level = s.level ∧
    (ucAlignMem s lvl).propagate = s.propagate := by
  unfold ucAlignMem
  by_cases h : HEntry.mem ∈ s.handlers <;> cases hm : s.memSlot <;> simp [h, hm]

lemma ucAlignCon_struct (s : Sys) (lvl : Nat) :
    (ucAlignCon s lvl).handlers = s.handlers ∧
    (ucAlignCon s lvl).conSlot.isSome = s.conSlot.isSome ∧
    (ucAlignCon s lvl).memSlot = s.memSlot ∧
    (ucAlignCon s lvl).fileSlot = s.fileSlot ∧
    (ucAlignCon s lvl).bootstrapped = s.bootstrapped ∧
    (ucAlignCon s lvl).config = s.config ∧
    (ucAlignCon s lvl).files = s.files ∧
    (ucAlignCon s lvl).stdout = s.stdout ∧
    (ucAlignCon s lvl).level = s.level ∧
    (ucAlignCon s lvl).propagate = s.propagate := by
  unfold ucAlignCon
  by_cases h : HEntry.con ∈ s.handlers <;> cases hc : s.conSlot <;> simp [h, hc]

lemma ucAlignFile_struct (s : Sys) (lvl : Nat) :
    (ucAlignFile s lvl).handlers = s.handlers ∧
    (ucAlignFile s lvl).conSlot = s.conSlot ∧
    (ucAlignFile s lvl).memSlot = s.memSlot ∧
    (ucAlignFile s lvl).fileSlot.isSome = s.fileSlot.isSome ∧
    (ucAlignFile s lvl).bootstrapped = s.bootstrapped ∧
    (ucAlignFile s lvl).config = s.config ∧
    (ucAlignFile s lvl).files = s.files ∧
    (ucAlignFile s lvl).stdout = s.stdout ∧
    (ucAlignFile s lvl).level = s.level ∧
    (ucAlignFile s lvl).propagate = s.propagate := by
  unfold ucAlignFile
  by_cases h : HEntry.file ∈ s.handlers <;> cases hf : s.fileSlot <;> simp [h, hf]

lemma ucAlignLevels_struct (s : Sys) (lvl : Nat) :
    (ucAlignLevels s lvl).handlers = s.handlers ∧
    (ucAlignLevels s lvl).conSlot.isSome = s.conSlot.isSome ∧
    (ucAlignLevels s lvl).memSlot.isSome = s.memSlot.isSome ∧
    (ucAlignLevels s lvl).fileSlot.isSome = s.fileSlot.isSome ∧
    (ucAlignLevels s lvl).bootstrapped = s.bootstrapped ∧
    (ucAlignLevels s lvl).config = s.config ∧
    (ucAlignLevels s lvl).files = s.files ∧
    (ucAlignLevels s lvl).stdout = s.stdout ∧
    (ucAlignLevels s lvl).level = s.level ∧
    (ucAlignLevels s lvl).propagate = s.propagate := by
  unfold ucAlignLevels
  obtain ⟨m1, m2, m3, m4, m5, m6, m7, m8, m9, m10⟩ := ucAlignMem_struct s lvl
  obtain ⟨c1, c2, c3, c4, c5, c6, c7, c8, c9, c10⟩ := ucAlignCon_struct (ucAlignMem s lvl) lvl
  obtain ⟨f1, f2, f3, f4, f5, f6, f7, f8, f9, f10⟩ :=
    ucAlignFile_struct (ucAlignCon (ucAlignMem s lvl) lvl) lvl
  refine ⟨f1.trans (c1.trans m1), ?_, ?_, ?_, f5.trans (c5.trans m5), f6.trans (c6.trans m6),
          f7.trans (c7.trans m7), f8.trans (c8.trans m8), f9.trans (c9.trans m9),
          f10.trans (c10.trans m10)⟩
  · rw [congrArg Option.isSome f2, c2, congrArg Option.isSome m2]
  · rw [congrArg Option.isSome f3, congrArg Option.isSome c3, m3]
  · rw [f4, congrArg Option.isSome c4, congrArg Option.isSome m4]

lemma uc_console_off (s : Sys) (cIn : LogConfig)
    (hb : s.bootstrapped = true) (hco : cIn.console = false) :
    (update_config s cIn).conSlot = none := by
  unfold update_config
  have hb' : ¬ (ucApplyBase s (ucForceName s cIn)).bootstrapped = true → False := by
    simp [ucApplyBase, hb]
  rw [if_neg (by simpa using hb')]
  have h1 : (ucConsole (ucMemLevel (ucApplyBase s (ucForceName s cIn))
      (ucForceName s cIn).level) (ucForceName s cIn)).conSlot = none :=
    ucConsole_off _ _ (by rw [ucForceName_console]; exact hco)
  refine isSome_false_eq_none ?_
  rw [(ucAlignLevels_struct _ _).2.1, h1]
  rfl

lemma eflHandoff_struct (s : Sys) (target : String) :
    (eflHandoff s target).memSlot = none ∧
    (eflHandoff s target).handlers =
      (if s.memSlot.isSome then s.handlers.erase .mem else s.handlers) ∧
    (eflHandoff s target).conSlot = s.conSlot ∧
    (eflHandoff s target).fileSlot = s.fileSlot ∧
    (eflHandoff s target).bootstrapped = s.bootstrapped ∧
    (eflHandoff s target).config = s.config ∧
    (eflHandoff s target).level = s.level ∧
    (eflHandoff s target).propagate = s.propagate := by
  cases hm : s.memSlot with
  | none => simp [eflHandoff, hm]
  | some m =>
    have hiso : (logEmit s DEBUG "Flushing memory buffer to file").memSlot.isSome = true := by
      rw [logEmit_memIsSome, hm]; rfl
    obtain ⟨m2, hm2⟩ := Option.isSome_iff_exists.mp hiso
    simp only [eflHandoff, hm, hm2]
    simp [memFlushS_config, memFlushS_level, memFlushS_propagate, memFlushS_handlers,
          memFlushS_bootstrapped, memFlushS_conSlot, memFlushS_fileSlot,
          logEmit_handlers, logEmit_conSlot, logEmit_fileSlot,
          logEmit_bootstrapped, logEmit_config, logEmit_level, logEmit_propagate]

lemma efl_enter (s : Sys) (fp : Option String)
    (hb : s.bootstrapped = true) (hf : s.fileSlot = none) :
    enable_file_logging s fp =
      (let target := fp.getD s.config.file_path
       let s2 := eflHandoff ({ s with propagate := false, files := diskTouch s.files target }) target
       logEmit
         (logEmit
           ({ s2 with
                handlers := s2.handlers ++ [.file],
                fileSlot := some { level := s.config.level, path := target,
                                   maxBytes := s.config.rotate_max_bytes,
                                   backupCount := s.config.rotate_backup_count } })
           DEBUG "File handler attached")
         DEBUG ("File logging enabled: " ++ target)) := by
  simp [enable_file_logging, hb, hf]

lemma efl_struct (s : Sys) (hb : s.bootstrapped = true) (hf : s.fileSlot = none) :
    (enable_file_logging s none).memSlot = none ∧
    (enable_file_logging s none).fileSlot =
      some { level := s.config.level, path := s.config.file_path,
             maxBytes := s.config.rotate_max_bytes,
             backupCount := s.config.rotate_backup_count } ∧
    (enable_file_logging s none).handlers =
      (if s.memSlot.isSome then s.handlers.erase .mem else s.handlers) ++ [.file] ∧
    (enable_file_logging s none).conSlot = s.conSlot ∧
    (enable_file_logging s none).bootstrapped = true ∧
    (enable_file_logging s none).config = s.config ∧
    (enable_file_logging s none).level = s.level := by
  rw [efl_enter s none hb hf]
  simp only [Option.getD_none]
  obtain ⟨h1, h2, h3, h4, h5, h6, h7, h8⟩ :=
    eflHandoff_struct ({ s with propagate := false, files := diskTouch s.files s.config.file_path }) s.config.file_path
  simp only [hb] at h1 h2 h3 h4 h5 h6 h7
  refine ⟨?_, ?_, ?_, ?_, ?_, ?_, ?_⟩ <;>
    simp [h1, h2, h3, h4, h5, h6, h7, hb,
          logEmit_memSlot_none, logEmit_fileSlot, logEmit_handlers, logEmit_conSlot,
          logEmit_bootstrapped, logEmit_config, logEmit_level]

lemma efl_skip (s : Sys) (hb : s.bootstrapped = true) (hfs : s.fileSlot.isSome = true) :
    enable_file_logging s none =
      logEmit { s with propagate := false } DEBUG "File logging already enabled - skipping" := by
  simp [enable_file_logging, hb, hfs]

lemma uc_pre (s : Sys) (cIn : LogConfig) (hb : s.bootstrapped = false) :
    update_config s cIn = ucApplyBase s (ucForceName s cIn) := by
  simp [update_config, ucApplyBase, hb]

lemma uc_post (s : Sys) (cIn : LogConfig) (hb : s.bootstrapped = true) :
    update_config s cIn =
      ucAlignLevels (ucConsole (ucMemLevel (ucApplyBase s (ucForceName s cIn))
        (ucForceName s cIn).level) (ucForceName s cIn)) (ucForceName s cIn).level := by
  simp [update_config, ucApplyBase, hb]

lemma uc_presence (s : Sys) (cIn : LogConfig) :
    (update_config s cIn).memSlot.isSome = s.memSlot.isSome ∧
    (update_config s cIn).fileSlot.isSome = s.fileSlot.isSome ∧
    (update_config s cIn).handlers.count .mem = s.handlers.count .mem ∧
    (update_config s cIn).handlers.count .file = s.handlers.count .file ∧
    (update_config s cIn).bootstrapped = s.bootstrapped := by
  by_cases hb : s.bootstrapped = true
  · rw [uc_post s cIn hb]
    obtain ⟨a1, a2, a3, a4, a5, _, _, _, _, _⟩ :=
      ucAlignLevels_struct (ucConsole (ucMemLevel (ucApplyBase s (ucForceName s cIn))
        (ucForceName s cIn).level) (ucForceName s cIn)) (ucForceName s cIn).level
    obtain ⟨b1, b2, b3, b4, _, _, b7, b8⟩ :=
      ucConsole_struct (ucMemLevel (ucApplyBase s (ucForceName s cIn))
        (ucForceName s cIn).level) (ucForceName s cIn)
    obtain ⟨c1, c2, c3, c4, _, _, _, _, _, c10⟩ :=
      ucMemLevel_struct (ucApplyBase s (ucForceName s cIn)) (ucForceName s cIn).level
    refine ⟨?_, ?_, ?_, ?_, ?_⟩
    · rw [a3, b2, c10]; rfl
    · rw [a4, congrArg Option.isSome b3, congrArg Option.isSome c3]; rfl
    · rw [a1, b7, congrArg (List.count HEntry.mem) c1]; rfl
    · rw [a1, b8, congrArg (List.count HEntry.file) c1]; rfl
    · rw [a5, b4, c4]; rfl
  · have hb' : s.bootstrapped = false := by revert hb; cases s.bootstrapped <;> simp
    rw [uc_pre s cIn hb']
    simp [ucApplyBase, hb']

lemma bootTimes_stable (k : Nat) : ∀ s : Sys, s.bootstrapped = true →
    (bootTimes k s).handlers = s.handlers ∧ (bootTimes k s).bootstrapped = true := by
  induction k with
  | zero => intro s hb; exact ⟨rfl, hb⟩
  | succ k ih =>
    intro s hb
    have he := bootstrap_when_bootstrapped s hb
    have hh : (bootstrap s).handlers = s.handlers := by rw [he, logEmit_handlers]
    have hb' : (bootstrap s).bootstrapped = true := by
      rw [he, logEmit_bootstrapped]; exact hb
    have h := ih (bootstrap s) hb'
    exact ⟨h.1.trans hh, h.2⟩

/-!
File-content lemmas: what one emission writes durably once the file sink
is attached, and what the buffer handoff writes.
-/

lemma foldDeliver_disk_file (r : LogRecord) (hs : List HEntry) :
    ∀ (a : Sys) (f : FileH), a.memSlot = none → a.fileSlot = some f →
      diskAt ((hs.foldl (fun x h => deliver1 x h r) a)).files f.path =
        diskAt a.files f.path ++
          (if f.level ≤ r.lvl then List.replicate (hs.count .file) r else []) := by
  induction hs with
  | nil => intro a f _ _; simp
  | cons h t ih =>
    intro a f hm hf
    cases h with
    | mem =>
      have hstep : deliver1 a .mem r = a := by simp [deliver1, hm]
      rw [List.foldl_cons, hstep, ih a f hm hf]
      have : (HEntry.mem :: t).count .file = t.count .file :=
        List.count_cons_of_ne (by decide) t
      rw [this]
    | con =>
      have hfi : (deliver1 a .con r).files = a.files ∧
          (deliver1 a .con r).memSlot = a.memSlot ∧
          (deliver1 a .con r).fileSlot = a.fileSlot := by
        cases hc : a.conSlot with
        | none => simp [deliver1, hc]
        | some cc => by_cases hl : cc.level ≤ r.lvl <;> simp [deliver1, hc, hl]
      rw [List.foldl_cons, ih _ f (hfi.2.1.trans hm) (hfi.2.2.trans hf), hfi.1]
      have : (HEntry.con :: t).count .file = t.count .file :=
        List.count_cons_of_ne (by decide) t
      rw [this]
    | file =>
      by_cases hl : f.level ≤ r.lvl
      · have hstep : deliver1 a .file r = { a with files := diskWrite a.files f.path r } := by
          simp [deliver1, hf, hl]
        rw [List.foldl_cons, hstep,
            ih { a with files := diskWrite a.files f.path r } f hm hf, List.count_cons_self]
        simp [hl, diskAt_write_self, List.replicate_succ, List.append_assoc]
      · have hstep : deliver1 a .file r = a := by simp [deliver1, hf, hl]
        rw [List.foldl_cons, hstep, ih a f hm hf]
        simp [hl]

lemma logEmit_disk_file (s : Sys) (f : FileH) (lvl : Nat) (msg : String)
    (hm : s.memSlot = none) (hf : s.fileSlot = some f)
    (hc : s.handlers.count .file = 1) :
    diskAt (logEmit s lvl msg).files f.path =
      diskAt s.files f.path ++
        (if effLevel s ≤ lvl ∧ f.level ≤ lvl then [⟨lvl, msg⟩] else []) := by
  unfold logEmit
  by_cases he : effLevel s ≤ lvl
  · rw [if_pos he]
    unfold deliverAll
    rw [foldDeliver_disk_file ⟨lvl, msg⟩ s.handlers s f hm hf, hc]
    by_cases hl : f.level ≤ lvl <;> simp [he, hl]
  · rw [if_neg he]
    simp [he]

lemma eflHandoff_disk (s : Sys) (m : MemH) (target : String)
    (hm : s.memSlot = some m) (ht : m.targetPath = none)
    (hc : s.handlers.count .mem = 1) (hf : s.fileSlot = none) :
    diskAt (eflHandoff s target).files target =
      diskAt s.files target ++ m.buffer ++
        (if effLevel s ≤ DEBUG ∧ m.level ≤ DEBUG then
          [⟨DEBUG, "Flushing memory buffer to file"⟩] else []) := by
  have hstep := logEmit_memSlot_buffer s m DEBUG "Flushing memory buffer to file" hm ht hc
  have hfiles : (logEmit s DEBUG "Flushing memory buffer to file").files = s.files :=
    logEmit_files_inert s DEBUG _ hf
      (fun mm hmm => by rw [hm] at hmm; cases hmm; exact ht)
  simp only [eflHandoff, hm, hstep]
  simp [memFlushS, diskAt_foldWrite, hfiles, List.append_assoc]

lemma efl_disk (s : Sys) (m : MemH)
    (hb : s.bootstrapped = true) (hf : s.fileSlot = none)
    (hm : s.memSlot = some m) (ht : m.targetPath = none)
    (hcm : s.handlers.count .mem = 1) (hcf : s.handlers.count .file = 0) :
    diskAt (enable_file_logging s none).files s.config.file_path =
      diskAt s.files s.config.file_path ++ m.buffer ++
        (if effLevel s ≤ DEBUG ∧ m.level ≤ DEBUG then
            [⟨DEBUG, "Flushing memory buffer to file"⟩] else []) ++
        (if effLevel s ≤ DEBUG ∧ s.config.level ≤ DEBUG then
            [⟨DEBUG, "File handler attached"⟩] else []) ++
        (if effLevel s ≤ DEBUG ∧ s.config.level ≤ DEBUG then
            [⟨DEBUG, ("File logging enabled: " ++ s.config.file_path)⟩] else []) := by
  rw [efl_enter s none hb hf]
  simp only [Option.getD_none]
  set p := s.config.file_path with hp
  set X : Sys := { s with propagate := false, files := diskTouch s.files p } with hX
  set s2 := eflHandoff X p with hs2
  set fh : FileH := { level := s.config.level, path := p,
                      maxBytes := s.config.rotate_max_bytes,
                      backupCount := s.config.rotate_backup_count } with hfh
  set s3 : Sys := { s2 with handlers := s2.handlers ++ [.file], fileSlot := some fh } with hs3
  obtain ⟨k1, k2, k3, k4, k5, k6, k7, k8⟩ := eflHandoff_struct X p
  rw [← hs2] at k1 k2 k7
  have hXm : X.memSlot = some m := hm
  have hs2h : s2.handlers = s.handlers.erase .mem := by
    rw [k2, hXm]; rfl
  have hc3 : s3.handlers.count .file = 1 := by
    rw [hs3]
    simp [hs2h, List.count_append,
          List.count_erase_of_ne (by decide : (HEntry.file ≠ HEntry.mem)), hcf]
  have hm3 : s3.memSlot = none := k1
  have hf3 : s3.fileSlot = some fh := rfl
  have hl3 : s3.level = s.level := k7
  have heff3 : effLevel s3 = effLevel s := by unfold effLevel; rw [hl3]
  have hd1 := logEmit_disk_file s3 fh DEBUG "File handler attached" hm3 hf3 hc3
  set s4 := logEmit s3 DEBUG "File handler attached" with hs4
  have hm4 : s4.memSlot = none := by rw [hs4]; exact logEmit_memSlot_none _ _ _ hm3
  have hf4 : s4.fileSlot = some fh := by rw [hs4, logEmit_fileSlot]
  have hc4 : s4.handlers.count .file = 1 := by rw [hs4, logEmit_handlers]; exact hc3
  have hl4 : s4.level = s.level := by rw [hs4, logEmit_level]; exact hl3
  have heff4 : effLevel s4 = effLevel s := by unfold effLevel; rw [hl4]
  have hd2 := logEmit_disk_file s4 fh DEBUG ("File logging enabled: " ++ p) hm4 hf4 hc4
  have hfp : fh.path = p := by rw [hfh]
  have hfl : fh.level = s.config.level := by rw [hfh]
  rw [hfp, hfl] at hd1 hd2
  rw [hd2, heff4, hs4, hd1, heff3]
  have hs3f : s3.files = s2.files := by rw [hs3]
  rw [hs3f]
  have hHD := eflHandoff_disk X m p hXm ht hcm hf
  rw [← hs2] at hHD
  have heffX : effLevel X = effLevel s := by
    unfold effLevel
    rw [show X.level = s.level from by rw [hX]]
  have hXd : diskAt X.files p = diskAt s.files p := by
    rw [hX]; exact diskAt_touch s.files p
  rw [hHD, heffX, hXd]

/-!
Buffer-content lemma for sequences of emissions: the buffer retains every
record at or above the threshold, in order, without eviction.
-/

lemma emitAll_buffer (rs : List LogRecord) : ∀ (s : Sys) (m : MemH),
    s.memSlot = some m → m.targetPath = none → s.handlers.count .mem = 1 →
    m.level = s.level → ¬ s.level = 0 →
    bufferOf (emitAll s rs) = m.buffer ++ rs.filter (fun r => m.level ≤ r.lvl) := by
  induction rs with
  | nil => intro s m hm _ _ _ _; simp [emitAll, bufferOf, hm]
  | cons r t ih =>
    intro s m hm ht hc hl h0
    have heff : effLevel s = s.level := by simp [effLevel, NOTSET, h0]
    have hstep := logEmit_memSlot_buffer s m r.lvl r.msg hm ht hc
    have hunf : emitAll s (r :: t) = emitAll (logEmit s r.lvl r.msg) t := rfl
    rw [hunf]
    by_cases hcond : m.level ≤ r.lvl
    · have hstep' : (logEmit s r.lvl r.msg).memSlot =
          some { m with buffer := m.buffer ++ [r] } := by
        rw [hstep, heff, ← hl]
        simp [hcond]
      have hres := ih (logEmit s r.lvl r.msg) { m with buffer := m.buffer ++ [r] }
        hstep' (by simpa using ht)
        (by rw [logEmit_handlers]; exact hc)
        (by rw [logEmit_level]; exact hl)
        (by rw [logEmit_level]; exact h0)
      rw [hres]
      simp [hcond, List.append_assoc]
    · have hstep' : (logEmit s r.lvl r.msg).memSlot = some m := by
        rw [hstep, heff, ← hl]
        simp [hcond]
      have hres := ih (logEmit s r.lvl r.msg) m hstep' ht
        (by rw [logEmit_handlers]; exact hc)
        (by rw [logEmit_level]; exact hl)
        (by rw [logEmit_level]; exact h0)
      rw [hres]
      simp [hcond]

/-!
Concrete symbolic evaluation of the bootstrap → enable-file → shutdown
trace when the severity threshold admits DEBUG diagnostics.
-/

lemma boot_eval (c : LogConfig) (h0 : ¬ c.level = 0) (h10 : c.level ≤ 10)
    (hcon : c.console = false) :
    bootstrap (freshSys c) =
      { config := c, level := c.level, propagate := false, handlers := [.mem],
        memSlot := some { level := c.level, capacity := c.buffer_capacity,
                          buffer := [⟨DEBUG, "Logger bootstrap started"⟩,
                                     ⟨DEBUG, "Logger bootstrap completed"⟩] },
        bootstrapped := true } := by
  simp [bootstrap, freshSys, logEmit, deliverAll, deliver1, handleMem, memFlushS, effLevel,
        hcon, h0, h10, DEBUG, NOTSET, WARNING, CRITICAL]

lemma boot_eval_con (c : LogConfig) (h0 : ¬ c.level = 0) (h10 : c.level ≤ 10)
    (hcon : c.console = true) :
    bootstrap (freshSys c) =
      { config := c, level := c.level, propagate := false, handlers := [.mem, .con],
        memSlot := some { level := c.level, capacity := c.buffer_capacity,
                          buffer := [⟨DEBUG, "Logger bootstrap started"⟩,
                                     ⟨DEBUG, "Console handler attached"⟩,
                                     ⟨DEBUG, "Logger bootstrap completed"⟩] },
        conSlot := some { level := c.level },
        bootstrapped := true,
        stdout := [⟨DEBUG, "Console handler attached"⟩,
                   ⟨DEBUG, "Logger bootstrap completed"⟩] } := by
  simp [bootstrap, freshSys, logEmit, deliverAll, deliver1, handleMem, memFlushS, effLevel,
        hcon, h0, h10, DEBUG, NOTSET, WARNING, CRITICAL]

lemma efl_eval (c : LogConfig) (h0 : ¬ c.level = 0) (h10 : c.level ≤ 10)
    (hcon : c.console = false) :
    enable_file_logging (bootstrap (freshSys c)) none =
      { config := c, level := c.level, propagate := false, handlers := [.file],
        fileSlot := some { level := c.level, path := c.file_path,
                           maxBytes := c.rotate_max_bytes,
                           backupCount := c.rotate_backup_count },
        bootstrapped := true,
        files := [(c.file_path,
                   [⟨DEBUG, "Logger bootstrap started"⟩,
                    ⟨DEBUG, "Logger bootstrap completed"⟩,
                    ⟨DEBUG, "Flushing memory buffer to file"⟩,
                    ⟨DEBUG, "File handler attached"⟩,
                    ⟨DEBUG, "File logging enabled: " ++ c.file_path⟩])] } := by
  rw [boot_eval c h0 h10 hcon]
  simp [enable_file_logging, eflHandoff, logEmit, deliverAll, deliver1, handleMem, memFlushS,
        effLevel, diskTouch, diskWrite, h0, h10, DEBUG, NOTSET, WARNING, CRITICAL, List.erase]

lemma efl_eval_con (c : LogConfig) (h0 : ¬ c.level = 0) (h10 : c.level ≤ 10)
    (hcon : c.console = true) :
    enable_file_logging (bootstrap (freshSys c)) none =
      { config := c, level := c.level, propagate := false, handlers := [.con, .file],
        conSlot := some { level := c.level },
        fileSlot := some { level := c.level, path := c.file_path,
                           maxBytes := c.rotate_max_bytes,
                           backupCount := c.rotate_backup_count },
        bootstrapped := true,
        files := [(c.file_path,
                   [⟨DEBUG, "Logger bootstrap started"⟩,
                    ⟨DEBUG, "Console handler attached"⟩,
                    ⟨DEBUG, "Logger bootstrap completed"⟩,
                    ⟨DEBUG, "Flushing memory buffer to file"⟩,
                    ⟨DEBUG, "File handler attached"⟩,
                    ⟨DEBUG, "File logging enabled: " ++ c.file_path⟩])],
        stdout := [⟨DEBUG, "Console handler attached"⟩,
                   ⟨DEBUG, "Logger bootstrap completed"⟩,
                   ⟨DEBUG, "Flushing memory buffer to file"⟩,
                   ⟨DEBUG, "File handler attached"⟩,
                   ⟨DEBUG, "File logging enabled: " ++ c.file_path⟩] } := by
  rw [boot_eval_con c h0 h10 hcon]
  simp [enable_file_logging, eflHandoff, logEmit, deliverAll, deliver1, handleMem, memFlushS,
        effLevel, diskTouch, diskWrite, h0, h10, DEBUG, NOTSET, WARNING, CRITICAL, List.erase]

lemma shut_eval (c : LogConfig) (h0 : ¬ c.level = 0) (h10 : c.level ≤ 10)
    (hcon : c.console = false) :
    shutdown (enable_file_logging (bootstrap (freshSys c)) none) =
      { config := c, level := c.level, propagate := false, handlers := [],
        bootstrapped := false,
        files := [(c.file_path,
                   [⟨DEBUG, "Logger bootstrap started"⟩,
                    ⟨DEBUG, "Logger bootstrap completed"⟩,
                    ⟨DEBUG, "Flushing memory buffer to file"⟩,
                    ⟨DEBUG, "File handler attached"⟩,
                    ⟨DEBUG, "File logging enabled: " ++ c.file_path⟩,
                    ⟨DEBUG, "Logger shutdown started"⟩,
                    ⟨DEBUG, "Logger shutdown completed"⟩])] } := by
  rw [efl_eval c h0 h10 hcon]
  simp [shutdown, shutdownDiagnostics, shutdownFlushManaged, shutdownReleaseMem,
        shutdownReleaseCon, shutdownReleaseFile, logEmit, deliverAll, deliver1, handleMem,
        memFlushS, effLevel, diskWrite, h0, h10, DEBUG, NOTSET, WARNING, CRITICAL,
        List.erase, conFlushE, fileFlushE, conCloseE, fileCloseE]

lemma shut_eval_con (c : LogConfig) (h0 : ¬ c.level = 0) (h10 : c.level ≤ 10)
    (hcon : c.console = true) :
    shutdown (enable_file_logging (bootstrap (freshSys c)) none) =
      { config := c, level := c.level, propagate := false, handlers := [],
        bootstrapped := false,
        files := [(c.file_path,
                   [⟨DEBUG, "Logger bootstrap started"⟩,
                    ⟨DEBUG, "Console handler attached"⟩,
                    ⟨DEBUG, "Logger bootstrap completed"⟩,
                    ⟨DEBUG, "Flushing memory buffer to file"⟩,
                    ⟨DEBUG, "File handler attached"⟩,
                    ⟨DEBUG, "File logging enabled: " ++ c.file_path⟩,
                    ⟨DEBUG, "Logger shutdown started"⟩,
                    ⟨DEBUG, "Logger shutdown completed"⟩])],
        stdout := [⟨DEBUG, "Console handler attached"⟩,
                   ⟨DEBUG, "Logger bootstrap completed"⟩,
                   ⟨DEBUG, "Flushing memory buffer to file"⟩,
                   ⟨DEBUG, "File handler attached"⟩,
                   ⟨DEBUG, "File logging enabled: " ++ c.file_path⟩,
                   ⟨DEBUG, "Logger shutdown started"⟩,
                   ⟨DEBUG, "Logger shutdown completed"⟩] } := by
  rw [efl_eval_con c h0 h10 hcon]
  simp [shutdown, shutdownDiagnostics, shutdownFlushManaged, shutdownReleaseMem,
        shutdownReleaseCon, shutdownReleaseFile, logEmit, deliverAll, deliver1, handleMem,
        memFlushS, effLevel, diskWrite, h0, h10, DEBUG, NOTSET, WARNING, CRITICAL,
        List.erase, conFlushE, fileFlushE, conCloseE, fileCloseE]

/-!
Claim theorems.
-/

/-- C4: misuse is an idempotent no-op rather than an exception, and
resource-release failures are swallowed.  Modelled facts: (1) a second
`bootstrap()` merely emits the "skipped" diagnostic and changes no handler
topology; (2) `shutdown()` — a total function in this embedding, every
fallible `flush`/`removeHandler`/`close` being wrapped exactly where the
source has `try/except Exception: pass` — detaches all three managed
sinks and clears the bootstrapped flag for EVERY state, including states
whose sinks raise from `flush()`/`close()` (the `*Raises` flags are
universally quantified here); (3) a second `shutdown()` is a no-op;
(4) the console detach performed by `update_config` likewise completes
for every state. -/
theorem C4_misuse_and_release_never_raise (s : Sys) (cIn : LogConfig) :
    (s.bootstrapped = true →
      bootstrap s = logEmit { s with propagate := false } DEBUG
          "Logger bootstrap skipped - already initialized" ∧
      (bootstrap s).handlers = s.handlers ∧
      (bootstrap s).bootstrapped = true ∧
      (bootstrap s).conSlot = s.conSlot ∧
      (bootstrap s).fileSlot = s.fileSlot ∧
      (bootstrap s).memSlot.isSome = s.memSlot.isSome ∧
      (bootstrap s).config = s.config) ∧
    ((shutdown s).memSlot = none ∧ (shutdown s).conSlot = none ∧
      (shutdown s).fileSlot = none ∧ (shutdown s).bootstrapped = false) ∧
    shutdown (shutdown s) = shutdown s ∧
    (s.bootstrapped = true → cIn.console = false → (update_config s cIn).conSlot = none) := by
  refine ⟨?_, ?_, shutdown_idem s, fun hb hco => uc_console_off s cIn hb hco⟩
  · intro hb
    have he := bootstrap_when_bootstrapped s hb
    refine ⟨he, ?_, ?_, ?_, ?_, ?_, ?_⟩ <;> rw [he] <;>
      simp [logEmit_handlers, logEmit_bootstrapped, logEmit_conSlot, logEmit_fileSlot,
            logEmit_memIsSome, logEmit_config, hb]
  · obtain ⟨a, b, c, d, _⟩ := shutdown_teardown s
    exact ⟨a, b, c, d⟩

/-- C4 witness: a bootstrapped state whose console and file sinks raise
from both `flush()` and `close()`; double-bootstrap leaves the handler
list untouched, shutdown still detaches everything, and the
console-disabling reconfigure still detaches the console sink. -/
theorem C4_misuse_witness :
    (bootstrap raisySys).handlers = raisySys.handlers ∧
    (shutdown raisySys).memSlot = none ∧
    (shutdown raisySys).conSlot = none ∧
    (shutdown raisySys).fileSlot = none ∧
    (shutdown raisySys).bootstrapped = false ∧
    (update_config raisySys { console := false }).conSlot = none :=
  ⟨((C4_misuse_and_release_never_raise raisySys { console := false }).1 rfl).2.1,
   (C4_misuse_and_release_never_raise raisySys { console := false }).2.1.1,
   (C4_misuse_and_release_never_raise raisySys { console := false }).2.1.2.1,
   (C4_misuse_and_release_never_raise raisySys { console := false }).2.1.2.2.1,
   (C4_misuse_and_release_never_raise raisySys { console := false }).2.1.2.2.2,
   (C4_misuse_and_release_never_raise raisySys { console := false }).2.2.2 rfl rfl⟩

/-- C6 (amended): before bootstrap, `reconfigure` updates the stored
configuration AND applies the new severity to the logger (`setLevel`) and
re-pins `propagate` — but attaches/detaches no handler and changes no
other state; and in every state, `reconfigure` never changes whether the
buffer sink or the file sink is attached (console presence is the only
handler presence it may change). -/
theorem C6_reconfigure_frame (s : Sys) (cIn : LogConfig) :
    (s.bootstrapped = false →
      update_config s cIn =
        { s with config := ucForceName s cIn, propagate := false, level := cIn.level } ∧
      (update_config s cIn).handlers = s.handlers ∧
      (update_config s cIn).memSlot = s.memSlot ∧
      (update_config s cIn).conSlot = s.conSlot ∧
      (update_config s cIn).fileSlot = s.fileSlot ∧
      (update_config s cIn).files = s.files ∧
      (update_config s cIn).stdout = s.stdout ∧
      (update_config s cIn).bootstrapped = false) ∧
    ((update_config s cIn).memSlot.isSome = s.memSlot.isSome ∧
     (update_config s cIn).fileSlot.isSome = s.fileSlot.isSome ∧
     (update_config s cIn).handlers.count .mem = s.handlers.count .mem ∧
     (update_config s cIn).handlers.count .file = s.handlers.count .file) := by
  constructor
  · intro hb
    have he := uc_pre s cIn hb
    refine ⟨?_, ?_, ?_, ?_, ?_, ?_, ?_, ?_⟩ <;> rw [he] <;>
      simp [ucApplyBase, ucForceName_level, hb]
  · obtain ⟨p1, p2, p3, p4, _⟩ := uc_presence s cIn
    exact ⟨p1, p2, p3, p4⟩

/-- C2: lifecycle idempotence.  (1) Calling bootstrap() n ≥ 2 times on a
fresh manager leaves exactly one buffer sink attached and, when console
output is enabled, exactly one console sink.  (2) The sequence
bootstrap(); enable_file_logging(); update_config(new level);
enable_file_logging() leaves exactly one file sink attached, and a file
sink is still present. -/
theorem C2_idempotent_lifecycle (c : LogConfig) (n : Nat) (hn : 2 ≤ n) (lvl2 : Nat) :
    ((bootTimes n (freshSys c)).handlers.count .mem = 1 ∧
     (c.console = true → (bootTimes n (freshSys c)).handlers.count .con = 1)) ∧
    ((enable_file_logging (update_config (enable_file_logging (bootstrap (freshSys c)) none)
        { c with level := lvl2 }) none).handlers.count .file = 1 ∧
     (enable_file_logging (update_config (enable_file_logging (bootstrap (freshSys c)) none)
        { c with level := lvl2 }) none).fileSlot.isSome = true) := by
  obtain ⟨B, O, hB⟩ := boot_fresh_facts c
  have hb1 : (bootstrap (freshSys c)).bootstrapped = true := by rw [hB]
  constructor
  · obtain ⟨k, rfl⟩ : ∃ k, n = k + 1 := ⟨n - 1, by omega⟩
    have hst := bootTimes_stable k (bootstrap (freshSys c)) hb1
    have hh : (bootTimes (k + 1) (freshSys c)).handlers = (bootstrap (freshSys c)).handlers :=
      hst.1
    constructor
    · rw [hh, hB]
      cases hcon : c.console <;> simp [hcon]
    · intro hcon
      rw [hh, hB]
      simp [hcon]
  · have hf1 : (bootstrap (freshSys c)).fileSlot = none := by rw [hB]
    obtain ⟨e1, e2, e3, e4, e5, e6, e7⟩ := efl_struct (bootstrap (freshSys c)) hb1 hf1
    have hcnt : (enable_file_logging (bootstrap (freshSys c)) none).handlers.count .file = 1 := by
      rw [e3, hB]
      cases hcon : c.console <;> simp [hcon, List.erase_cons_head]
    have hfs2 : (enable_file_logging (bootstrap (freshSys c)) none).fileSlot.isSome = true := by
      rw [e2]; rfl
    obtain ⟨p1, p2, p3, p4, p5⟩ :=
      uc_presence (enable_file_logging (bootstrap (freshSys c)) none) { c with level := lvl2 }
    have hb3 : (update_config (enable_file_logging (bootstrap (freshSys c)) none)
        { c with level := lvl2 }).bootstrapped = true := by rw [p5]; exact e5
    have hfs3 : (update_config (enable_file_logging (bootstrap (freshSys c)) none)
        { c with level := lvl2 }).fileSlot.isSome = true := by rw [p2]; exact hfs2
    have hsk := efl_skip _ hb3 hfs3
    constructor
    · rw [hsk, logEmit_handlers]
      show (update_config (enable_file_logging (bootstrap (freshSys c)) none)
        { c with level := lvl2 }).handlers.count .file = 1
      rw [p4]; exact hcnt
    · rw [hsk, logEmit_fileSlot]
      show (update_config (enable_file_logging (bootstrap (freshSys c)) none)
        { c with level := lvl2 }).fileSlot.isSome = true
      exact hfs3

/-- C2 witness: three bootstraps on the default config leave one buffer
sink; the bootstrap–enable–reconfigure–enable sequence leaves one file
sink. -/
theorem C2_idempotent_lifecycle_witness :
    (bootTimes 3 (freshSys {})).handlers.count .mem = 1 ∧
    (enable_file_logging (update_config (enable_file_logging (bootstrap (freshSys {})) none)
        { ({} : LogConfig) with level := ERROR }) none).handlers.count .file = 1 :=
  ⟨(C2_idempotent_lifecycle {} 3 (by decide) ERROR).1.1,
   (C2_idempotent_lifecycle {} 3 (by decide) ERROR).2.1⟩

/-- C6 witness: reconfiguring a fresh (never bootstrapped) manager leaves
every handler-related field untouched. -/
theorem C6_reconfigure_frame_witness :
    (update_config (freshSys {}) { level := ERROR }).handlers = [] ∧
    (update_config (freshSys {}) { level := ERROR }).memSlot.isSome
      = (freshSys ({} : LogConfig)).memSlot.isSome :=
  ⟨((C6_reconfigure_frame (freshSys {}) { level := ERROR }).1 rfl).2.1,
   (C6_reconfigure_frame (freshSys {}) { level := ERROR }).2.1⟩

/-- C7 (code_bug evidence): evaluating the full lifecycle
`bootstrap(); enable_file_logging(); shutdown()` at severity DEBUG (so
that every internal diagnostic is admitted), the durable log contains
exactly the seven messages below — including six of the seven messages
the claim requires, but no message containing "Enabling file logging"
(no call site in `logger.py` ever passes that text, and it is not a
substring of any message the module does emit, as the explicit message
list shows; the repository's own tests
`tests/core/test_logger.py:454` and `:696` assert it appears). -/
theorem C7_lifecycle_diagnostics :
    diskMsgs (shutdown (enable_file_logging
        (bootstrap (freshSys { level := DEBUG, console := false })) none)) "logs/app.log" =
      ["Logger bootstrap started", "Logger bootstrap completed",
       "Flushing memory buffer to file", "File handler attached",
       "File logging enabled: logs/app.log",
       "Logger shutdown started", "Logger shutdown completed"] ∧
    "Logger bootstrap started" ∈ diskMsgs (shutdown (enable_file_logging
        (bootstrap (freshSys { level := DEBUG, console := false })) none)) "logs/app.log" ∧
    "Logger bootstrap completed" ∈ diskMsgs (shutdown (enable_file_logging
        (bootstrap (freshSys { level := DEBUG, console := false })) none)) "logs/app.log" ∧
    "File handler attached" ∈ diskMsgs (shutdown (enable_file_logging
        (bootstrap (freshSys { level := DEBUG, console := false })) none)) "logs/app.log" ∧
    "File logging enabled: logs/app.log" ∈ diskMsgs (shutdown (enable_file_logging
        (bootstrap (freshSys { level := DEBUG, console := false })) none)) "logs/app.log" ∧
    "Logger shutdown started" ∈ diskMsgs (shutdown (enable_file_logging
        (bootstrap (freshSys { level := DEBUG, console := false })) none)) "logs/app.log" ∧
    "Logger shutdown completed" ∈ diskMsgs (shutdown (enable_file_logging
        (bootstrap (freshSys { level := DEBUG, console := false })) none)) "logs/app.log" ∧
    "Enabling file logging" ∉ diskMsgs (shutdown (enable_file_logging
        (bootstrap (freshSys { level := DEBUG, console := false })) none)) "logs/app.log" := by
  decide

/-- C3 (counterexample): at the default severity threshold INFO, the
lifecycle `bootstrap(); enable_file_logging(); shutdown()` leaves the log
file empty — in particular it does NOT contain "Logger shutdown
completed", because the shutdown diagnostics are emitted via
`logger.debug` and DEBUG < INFO.  This refutes the claim's unconditional
"the log file contains the literal substring \x22Logger shutdown
completed\x22". -/
theorem C3_counterexample :
    diskAt (shutdown (enable_file_logging
        (bootstrap (freshSys { level := INFO, console := false })) none)).files "logs/app.log"
      = [] ∧
    "Logger shutdown completed" ∉ diskMsgs (shutdown (enable_file_logging
        (bootstrap (freshSys { level := INFO, console := false })) none)) "logs/app.log" := by
  decide

/-- C5 (counterexample): with `buffer_capacity = 1`, two records emitted
at the threshold are BOTH retained by the buffer sink — the buffer holds
2 > 1 records and the older record is still there, refuting "holds at
most bufferCapacity records, retaining the last bufferCapacity records".
(`MemoryHandler.shouldFlush` does fire, but `flush()` with `target=None`
discards nothing.) -/
theorem C5_counterexample :
    bufferOf (logEmit (logEmit
        (bootstrap (freshSys { level := INFO, console := false, buffer_capacity := 1 }))
        INFO "M1") INFO "M2")
      = [⟨INFO, "M1"⟩, ⟨INFO, "M2"⟩] ∧
    ¬ ((bufferOf (logEmit (logEmit
        (bootstrap (freshSys { level := INFO, console := false, buffer_capacity := 1 }))
        INFO "M1") INFO "M2")).length ≤ 1) := by
  decide

/-- C6 (counterexample): calling `update_config` with a DEBUG-level
config before bootstrap changes the logger's severity level from NOTSET
to DEBUG (`logger.setLevel` runs before the bootstrapped check), an
observable state change beyond the stored configuration — refuting
"updates the stored configuration only ... no other observable state
changes". -/
theorem C6_counterexample :
    (update_config (freshSys {}) { level := DEBUG }).level = DEBUG ∧
    (freshSys ({} : LogConfig)).level = NOTSET ∧
    ¬ ((update_config (freshSys {}) { level := DEBUG }).level
        = (freshSys ({} : LogConfig)).level) := by
  decide

/-- C8 (counterexample): the Arabic-Indic digit FIVE (U+0665) is matched
by Python's `\d` and accepted by `int()`, so `parse_size_to_bytes "٥B"`
returns 5 — not the Invalid marker the claim requires for non-ASCII
digits. -/
theorem C8_counterexample :
    parse_size_to_bytes "٥B" = some 5 ∧
    parse_size_to_bytes "٥B" ≠ none ∧
    ¬ allAscii "٥B" := by
  refine ⟨by decide, by decide, ?_⟩
  intro h
  exact absurd (h '٥' (by decide)) (by decide)

/-- C9 (counterexample): `"0 B"` parses successfully to 0, yet the
resolver returns the fixed default 5×1024² — because the source computes
`parse_size_to_bytes(...) or DEFAULT_ROTATE_MAX_BYTES` and Python's `or`
treats the integer 0 as falsy.  This refutes "rotationMaxBytes = n ...
including n = 0". -/
theorem C9_counterexample :
    parse_size_to_bytes "0 B" = some 0 ∧
    (resolve_log_config_from_state { log := { rotation := "0 B" } }).rotate_max_bytes
      = DEFAULT_ROTATE_MAX_BYTES ∧
    ¬ ((resolve_log_config_from_state { log := { rotation := "0 B" } }).rotate_max_bytes = 0) := by
  decide

/-- C9 (amended): for every application state whose rotation string
parses to a byte count n > 0 the resolver returns rotationMaxBytes = n;
the fixed default of 5×1024² bytes is used when size parsing fails OR
yields 0 (Python's `or` treats 0 as falsy). -/
theorem C9_rotation_mapping (st : AppState) :
    (∀ n : Nat, parse_size_to_bytes st.log.rotation = some n → 0 < n →
        (resolve_log_config_from_state st).rotate_max_bytes = n) ∧
    ((parse_size_to_bytes st.log.rotation = some 0 ∨
        parse_size_to_bytes st.log.rotation = none) →
      (resolve_log_config_from_state st).rotate_max_bytes = DEFAULT_ROTATE_MAX_BYTES) := by
  constructor
  · intro n hp hn
    have hn' : ¬ n = 0 := Nat.pos_iff_ne_zero.mp hn
    simp [resolve_log_config_from_state, hp, hn']
  · rintro (h | h) <;> simp [resolve_log_config_from_state, h]

/-- C9 witness: a concrete successful parse, "2 MB" ↦ 2×1024² bytes. -/
theorem C9_rotation_mapping_witness :
    (resolve_log_config_from_state { log := { rotation := "2 MB" } }).rotate_max_bytes
      = 2 * 1024 ^ 2 :=
  (C9_rotation_mapping { log := { rotation := "2 MB" } }).1 (2 * 1024 ^ 2)
    (by decide) (by decide)

/-- C10: the resolver's output is independent of the state's
`buffer_capacity` field — two states differing only there resolve to
identical configurations — and the returned configuration's
`buffer_capacity` is always the `LogConfig` default 500 (the resolver's
`LogConfig(...)` call simply omits the field). -/
theorem C10_buffer_capacity_independent (ls : LogState) (b₁ b₂ : Nat) :
    resolve_log_config_from_state { log := { ls with buffer_capacity := b₁ } } =
      resolve_log_config_from_state { log := { ls with buffer_capacity := b₂ } } ∧
    (resolve_log_config_from_state { log := ls }).buffer_capacity = 500 :=
  ⟨rfl, rfl⟩

/-- C3 (amended): provided the severity threshold admits DEBUG
diagnostics (0 < level ≤ DEBUG), after bootstrap();
enable_file_logging(); shutdown() the log file contains "Logger shutdown
started" followed by "Logger shutdown completed" (the diagnostics are
emitted before any sink is removed, so they reach the still-attached file
sink), and afterwards no managed sink remains attached and the manager is
no longer bootstrapped.  Without that proviso the file-content part fails
(see the counterexample): the original claim holds only under it. -/
theorem C3_shutdown_ordering (c : LogConfig) (h0 : ¬ c.level = NOTSET) (h10 : c.level ≤ DEBUG) :
    (["Logger shutdown started", "Logger shutdown completed"] : List String).Sublist
        (diskMsgs (shutdown (enable_file_logging (bootstrap (freshSys c)) none)) c.file_path) ∧
    "Logger shutdown completed" ∈
        diskMsgs (shutdown (enable_file_logging (bootstrap (freshSys c)) none)) c.file_path ∧
    (shutdown (enable_file_logging (bootstrap (freshSys c)) none)).fileSlot = none ∧
    (shutdown (enable_file_logging (bootstrap (freshSys c)) none)).memSlot = none ∧
    (shutdown (enable_file_logging (bootstrap (freshSys c)) none)).conSlot = none ∧
    (shutdown (enable_file_logging (bootstrap (freshSys c)) none)).handlers = [] ∧
    (shutdown (enable_file_logging (bootstrap (freshSys c)) none)).bootstrapped = false := by
  have h0' : ¬ c.level = 0 := by simpa [NOTSET] using h0
  have h10' : c.level ≤ 10 := by simpa [DEBUG] using h10
  cases hcon : c.console
  · rw [shut_eval c h0' h10' hcon]
    have hD : diskMsgs
        ({ config := c, level := c.level, propagate := false, handlers := [],
           bootstrapped := false,
           files := [(c.file_path,
                      [⟨DEBUG, "Logger bootstrap started"⟩,
                       ⟨DEBUG, "Logger bootstrap completed"⟩,
                       ⟨DEBUG, "Flushing memory buffer to file"⟩,
                       ⟨DEBUG, "File handler attached"⟩,
                       ⟨DEBUG, "File logging enabled: " ++ c.file_path⟩,
                       ⟨DEBUG, "Logger shutdown started"⟩,
                       ⟨DEBUG, "Logger shutdown completed"⟩])] } : Sys) c.file_path =
        ["Logger bootstrap started", "Logger bootstrap completed",
         "Flushing memory buffer to file", "File handler attached",
         "File logging enabled: " ++ c.file_path,
         "Logger shutdown started", "Logger shutdown completed"] := by
      simp [diskMsgs, diskAt]
    rw [hD]
    refine ⟨?_, ?_, rfl, rfl, rfl, rfl, rfl⟩
    · exact (((((List.Sublist.refl _).cons _).cons _).cons _).cons _).cons _
    · simp
  · rw [shut_eval_con c h0' h10' hcon]
    have hD : diskMsgs
        ({ config := c, level := c.level, propagate := false, handlers := [],
           bootstrapped := false,
           files := [(c.file_path,
                      [⟨DEBUG, "Logger bootstrap started"⟩,
                       ⟨DEBUG, "Console handler attached"⟩,
                       ⟨DEBUG, "Logger bootstrap completed"⟩,
                       ⟨DEBUG, "Flushing memory buffer to file"⟩,
                       ⟨DEBUG, "File handler attached"⟩,
                       ⟨DEBUG, "File logging enabled: " ++ c.file_path⟩,
                       ⟨DEBUG, "Logger shutdown started"⟩,
                       ⟨DEBUG, "Logger shutdown completed"⟩])],
           stdout := [⟨DEBUG, "Console handler attached"⟩,
                      ⟨DEBUG, "Logger bootstrap completed"⟩,
                      ⟨DEBUG, "Flushing memory buffer to file"⟩,
                      ⟨DEBUG, "File handler attached"⟩,
                      ⟨DEBUG, "File logging enabled: " ++ c.file_path⟩,
                      ⟨DEBUG, "Logger shutdown started"⟩,
                      ⟨DEBUG, "Logger shutdown completed"⟩] } : Sys) c.file_path =
        ["Logger bootstrap started", "Console handler attached",
         "Logger bootstrap completed", "Flushing memory buffer to file",
         "File handler attached", "File logging enabled: " ++ c.file_path,
         "Logger shutdown started", "Logger shutdown completed"] := by
      simp [diskMsgs, diskAt]
    rw [hD]
    refine ⟨?_, ?_, rfl, rfl, rfl, rfl, rfl⟩
    · exact ((((((List.Sublist.refl _).cons _).cons _).cons _).cons _).cons _).cons _
    · simp

/-- C3 witness: with the DEBUG threshold, the shutdown-completed
diagnostic is durably recorded. -/
theorem C3_shutdown_ordering_witness :
    "Logger shutdown completed" ∈
      diskMsgs (shutdown (enable_file_logging
        (bootstrap (freshSys ({ level := DEBUG } : LogConfig))) none)) "logs/app.log" :=
  (C3_shutdown_ordering { level := DEBUG } (by decide) (by decide)).2.1

/-- C1: buffer-to-file handoff preserves order and content.  For two
records M1, M2 emitted at or above the (positive) severity threshold
after bootstrap() and before enable_file_logging(), the file receives M1
then M2 in that chronological order; indeed the whole buffer content at
handoff time lands in the file as a prefix-preserving subsequence; the
buffer sink is drained to empty and detached ("memSlot = none", zero
buffer sinks among the handlers). -/
theorem C1_buffer_file_handoff (c : LogConfig) (l1 l2 : Nat) (m1 m2 : String)
    (h0 : ¬ c.level = NOTSET) (hl1 : c.level ≤ l1) (hl2 : c.level ≤ l2) :
    [(⟨l1, m1⟩ : LogRecord), ⟨l2, m2⟩].Sublist
      (diskAt (enable_file_logging
        (logEmit (logEmit (bootstrap (freshSys c)) l1 m1) l2 m2) none).files c.file_path) ∧
    (bufferOf (logEmit (logEmit (bootstrap (freshSys c)) l1 m1) l2 m2)).Sublist
      (diskAt (enable_file_logging
        (logEmit (logEmit (bootstrap (freshSys c)) l1 m1) l2 m2) none).files c.file_path) ∧
    (enable_file_logging
      (logEmit (logEmit (bootstrap (freshSys c)) l1 m1) l2 m2) none).memSlot = none ∧
    (enable_file_logging
      (logEmit (logEmit (bootstrap (freshSys c)) l1 m1) l2 m2) none).handlers.count .mem = 0 ∧
    bufferOf (enable_file_logging
      (logEmit (logEmit (bootstrap (freshSys c)) l1 m1) l2 m2) none) = [] := by
  have h0' : ¬ c.level = 0 := by simpa [NOTSET] using h0
  obtain ⟨B, O, hB⟩ := boot_fresh_facts c
  set s1 := bootstrap (freshSys c) with hs1
  set m0 : MemH := { level := c.level, capacity := c.buffer_capacity, buffer := B } with hm0
  have hm1 : s1.memSlot = some m0 := by rw [hB]
  have hl1m : s1.level = c.level := by rw [hB]
  have heff1 : effLevel s1 = c.level := by unfold effLevel; rw [hl1m]; simp [NOTSET, h0']
  have hcm1 : s1.handlers.count .mem = 1 := by
    rw [hB]; cases hcon : c.console <;> simp [hcon]
  have hcf1 : s1.handlers.count .file = 0 := by
    rw [hB]; cases hcon : c.console <;> simp [hcon]
  have hfs1 : s1.fileSlot = none := by rw [hB]
  have htp : m0.targetPath = none := by rw [hm0]
  have hml : m0.level = c.level := by rw [hm0]
  set s2 := logEmit s1 l1 m1 with hs2
  have hstep1 := logEmit_memSlot_buffer s1 m0 l1 m1 hm1 htp hcm1
  have hm2 : s2.memSlot = some { m0 with buffer := m0.buffer ++ [⟨l1, m1⟩] } := by
    rw [hs2, hstep1, heff1, hml]
    simp [hl1]
  have hcm2 : s2.handlers.count .mem = 1 := by rw [hs2, logEmit_handlers]; exact hcm1
  have hcf2 : s2.handlers.count .file = 0 := by rw [hs2, logEmit_handlers]; exact hcf1
  have hfs2 : s2.fileSlot = none := by rw [hs2, logEmit_fileSlot]; exact hfs1
  have hl2m : s2.level = c.level := by rw [hs2, logEmit_level]; exact hl1m
  have heff2 : effLevel s2 = c.level := by unfold effLevel; rw [hl2m]; simp [NOTSET, h0']
  have hfi2 : s2.files = s1.files := by
    rw [hs2]
    exact logEmit_files_inert s1 l1 m1 hfs1
      (fun mm hmm => by rw [hm1] at hmm; exact (Option.some.inj hmm) ▸ htp)
  set s3 := logEmit s2 l2 m2 with hs3
  have hstep2 := logEmit_memSlot_buffer s2 { m0 with buffer := m0.buffer ++ [⟨l1, m1⟩] }
    l2 m2 hm2 htp hcm2
  have hm3 : s3.memSlot =
      some { m0 with buffer := (m0.buffer ++ [⟨l1, m1⟩]) ++ [⟨l2, m2⟩] } := by
    rw [hs3, hstep2, heff2]
    have : ({ m0 with buffer := m0.buffer ++ [⟨l1, m1⟩] } : MemH).level = c.level := hml
    rw [this]
    simp [hl2]
  have hcm3 : s3.handlers.count .mem = 1 := by rw [hs3, logEmit_handlers]; exact hcm2
  have hcf3 : s3.handlers.count .file = 0 := by rw [hs3, logEmit_handlers]; exact hcf2
  have hfs3 : s3.fileSlot = none := by rw [hs3, logEmit_fileSlot]; exact hfs2
  have hfi3 : s3.files = s2.files := by
    rw [hs3]
    exact logEmit_files_inert s2 l2 m2 hfs2
      (fun mm hmm => by rw [hm2] at hmm; exact (Option.some.inj hmm) ▸ htp)
  have hbuf3 : bufferOf s3 = (m0.buffer ++ [⟨l1, m1⟩]) ++ [⟨l2, m2⟩] := by
    simp [bufferOf, hm3]
  have hb3 : s3.bootstrapped = true := by
    rw [hs3, logEmit_bootstrapped, hs2, logEmit_bootstrapped, hB]
  have hcfg3 : s3.config = c := by
    rw [hs3, logEmit_config, hs2, logEmit_config, hB]
  have hd := efl_disk s3 { m0 with buffer := (m0.buffer ++ [⟨l1, m1⟩]) ++ [⟨l2, m2⟩] }
    hb3 hfs3 hm3 htp hcm3 hcf3
  rw [hcfg3] at hd
  have hdisk3 : diskAt s3.files c.file_path = [] := by
    rw [hfi3, hfi2, hB]
    simp [diskAt]
  rw [hdisk3] at hd
  simp only [List.nil_append] at hd
  obtain ⟨e1, e2, e3, e4, e5, e6, e7⟩ := efl_struct s3 hb3 hfs3
  refine ⟨?_, ?_, e1, ?_, ?_⟩
  · rw [hd]
    have h12 : ([(⟨l1, m1⟩ : LogRecord), ⟨l2, m2⟩]).Sublist
        (({ m0 with buffer := (m0.buffer ++ [⟨l1, m1⟩]) ++ [⟨l2, m2⟩] } : MemH).buffer) :=
      (List.sublist_append_right m0.buffer [⟨l1, m1⟩]).append_right [⟨l2, m2⟩]
    exact ((h12.trans (List.sublist_append_left _ _)).trans
      (List.sublist_append_left _ _)).trans (List.sublist_append_left _ _)
  · rw [hd, hbuf3]
    exact (((List.sublist_append_left _ _).trans
      (List.sublist_append_left _ _)).trans (List.sublist_append_left _ _))
  · rw [e3, hm3]
    simp [List.count_append, List.count_erase_self, hcm3]
  · simp [bufferOf, e1]

/-- C1 witness: two INFO records emitted on the default-level config end
up in the file in order, and the buffer sink is gone. -/
theorem C1_buffer_file_handoff_witness :
    [(⟨INFO, "M1"⟩ : LogRecord), ⟨INFO, "M2"⟩].Sublist
      (diskAt (enable_file_logging
        (logEmit (logEmit (bootstrap (freshSys {})) INFO "M1") INFO "M2") none).files
        ({} : LogConfig).file_path) ∧
    (enable_file_logging
      (logEmit (logEmit (bootstrap (freshSys {})) INFO "M1") INFO "M2") none).memSlot = none :=
  ⟨(C1_buffer_file_handoff {} INFO INFO "M1" "M2" (by decide) (by decide) (by decide)).1,
   (C1_buffer_file_handoff {} INFO INFO "M1" "M2"
     (by decide) (by decide) (by decide)).2.2.1⟩

/-- C5 (amended): between bootstrap and the enabling of durable output
the buffer sink retains EVERY record emitted at or above the severity
threshold, in order — it is NOT truncated to the last bufferCapacity
records.  `MemoryHandler.shouldFlush` does fire at capacity, but
`flush()` with `target=None` discards nothing, so the buffer grows
without bound (see the counterexample for a concrete overflow). -/
theorem C5_buffer_retains_all (s : Sys) (m : MemH) (rs : List LogRecord)
    (hm : s.memSlot = some m) (ht : m.targetPath = none)
    (hc : s.handlers.count .mem = 1) (hl : m.level = s.level)
    (h0 : ¬ s.level = NOTSET) :
    bufferOf (emitAll s rs) = m.buffer ++ rs.filter (fun r => m.level ≤ r.lvl) :=
  emitAll_buffer rs s m hm ht hc hl (by simpa [NOTSET] using h0)

/-- C5 witness: with capacity 1 and two at-threshold records, the buffer
holds both. -/
theorem C5_buffer_retains_all_witness :
    bufferOf (emitAll
      (bootstrap (freshSys { level := INFO, console := false, buffer_capacity := 1 }))
      [⟨INFO, "M1"⟩, ⟨INFO, "M2"⟩]) = [⟨INFO, "M1"⟩, ⟨INFO, "M2"⟩] :=
  C5_buffer_retains_all
    (bootstrap (freshSys { level := INFO, console := false, buffer_capacity := 1 }))
    { level := INFO, capacity := 1 } [⟨INFO, "M1"⟩, ⟨INFO, "M2"⟩]
    (by decide) (by decide) (by decide) (by decide) (by decide)

/-! Character-class arithmetic: every class test reduces to a statement
about `Char.toNat`, after which `omega` settles the side conditions. -/

lemma char_le_iff (c d : Char) : c ≤ d ↔ c.toNat ≤ d.toNat := Iff.rfl

lemma char_eq_iff (c d : Char) : c = d ↔ c.toNat = d.toNat :=
  ⟨fun h => h ▸ rfl, fun h => Char.eq_of_val_eq (UInt32.ext h)⟩

lemma toNat_ofNat_valid (m : Nat) (hv : m < 55296) : (Char.ofNat m).toNat = m := by
  unfold Char.ofNat
  rw [dif_pos (Or.inl hv)]
  simp [Char.ofNatAux, Char.toNat, UInt32.toNat_ofNat]
  rfl

lemma asciiUpper_toNat (c : Char) :
    (asciiUpper c).toNat =
      if 97 ≤ c.toNat ∧ c.toNat ≤ 122 then c.toNat - 32 else c.toNat := by
  unfold asciiUpper
  by_cases h : 97 ≤ c.toNat ∧ c.toNat ≤ 122
  · rw [if_pos, if_pos h]
    · exact toNat_ofNat_valid _ (by omega)
    · exact ⟨(char_le_iff 'a' c).mpr h.1, (char_le_iff c 'z').mpr h.2⟩
  · rw [if_neg, if_neg h]
    intro hc
    exact h ⟨(char_le_iff 'a' c).mp hc.1, (char_le_iff c 'z').mp hc.2⟩

lemma pyWs_iff (c : Char) : pyWs c = true ↔
    (c.toNat = 32 ∨ c.toNat = 9 ∨ c.toNat = 10 ∨ c.toNat = 13 ∨
      c.toNat = 11 ∨ c.toNat = 12 ∨ c.toNat = 28 ∨ c.toNat = 29 ∨
      c.toNat = 30 ∨ c.toNat = 31) := by
  unfold pyWs
  simp only [decide_eq_true_eq, char_eq_iff,
    show (' ').toNat = 32 from rfl, show ('\t').toNat = 9 from rfl,
    show ('\n').toNat = 10 from rfl, show ('\r').toNat = 13 from rfl,
    show ('\x0b').toNat = 11 from rfl, show ('\x0c').toNat = 12 from rfl,
    show ('\x1c').toNat = 28 from rfl, show ('\x1d').toNat = 29 from rfl,
    show ('\x1e').toNat = 30 from rfl, show ('\x1f').toNat = 31 from rfl]

lemma asciiDigit_iff (c : Char) : asciiDigit c = true ↔
    (48 ≤ c.toNat ∧ c.toNat ≤ 57) := by
  unfold asciiDigit
  simp only [decide_eq_true_eq, char_le_iff,
    show ('0').toNat = 48 from rfl, show ('9').toNat = 57 from rfl]

lemma pyDigit_iff (c : Char) : pyDigit c = true ↔
    ((48 ≤ c.toNat ∧ c.toNat ≤ 57) ∨ (1632 ≤ c.toNat ∧ c.toNat ≤ 1641)) := by
  unfold pyDigit
  simp only [decide_eq_true_eq, asciiDigit_iff]

/-- `str.upper()` neither creates nor destroys whitespace. -/
lemma upper_pyWs (c : Char) : pyWs (asciiUpper c) = pyWs c := by
  apply Bool.coe_iff_coe.mp
  rw [pyWs_iff, pyWs_iff, asciiUpper_toNat c]
  split_ifs with h <;> omega

/-- `str.upper()` neither creates nor destroys decimal digits. -/
lemma upper_pyDigit (c : Char) : pyDigit (asciiUpper c) = pyDigit c := by
  apply Bool.coe_iff_coe.mp
  rw [pyDigit_iff, pyDigit_iff, asciiUpper_toNat c]
  split_ifs with h <;> omega

/-- `str.upper()` fixes every character outside the lowercase range. -/
lemma upper_fix (c : Char) (h : ¬ (97 ≤ c.toNat ∧ c.toNat ≤ 122)) : asciiUpper c = c :=
  (char_eq_iff _ _).mpr (by rw [asciiUpper_toNat, if_neg h])

lemma upper_fix_ws {c : Char} (h : pyWs c = true) : asciiUpper c = c :=
  upper_fix c (by rw [pyWs_iff] at h; omega)

lemma upper_fix_digit {c : Char} (h : asciiDigit c = true) : asciiUpper c = c :=
  upper_fix c (by rw [asciiDigit_iff] at h; omega)

lemma digit_not_ws {c : Char} (h : asciiDigit c = true) : pyWs c = false := by
  rw [asciiDigit_iff] at h
  refine eq_false_of_ne_true (fun hw => ?_)
  rw [pyWs_iff] at hw
  omega

lemma ws_not_digit {c : Char} (h : pyWs c = true) : pyDigit c = false := by
  rw [pyWs_iff] at h
  refine eq_false_of_ne_true (fun hd => ?_)
  rw [pyDigit_iff] at hd
  omega

lemma pyDigit_of_ascii {c : Char} (h : asciiDigit c = true) : pyDigit c = true := by
  rw [asciiDigit_iff] at h
  rw [pyDigit_iff]
  omega

/-- Under the ASCII restriction, Python's `\d` is exactly an ASCII digit. -/
lemma ascii_digit_of_pyDigit {c : Char} (hA : c.toNat < 128) (h : pyDigit c = true) :
    asciiDigit c = true := by
  rw [pyDigit_iff] at h
  rw [asciiDigit_iff]
  omega

/-! `takeWhile` / `dropWhile` bookkeeping over runs of a fixed class. -/

lemma takeWhile_append_all {α : Type} (p : α → Bool) (l₁ l₂ : List α)
    (h : ∀ x ∈ l₁, p x = true) :
    (l₁ ++ l₂).takeWhile p = l₁ ++ l₂.takeWhile p := by
  induction l₁ with
  | nil => simp
  | cons a t ih =>
      simp only [List.cons_append, List.takeWhile_cons, h a (by simp), if_true]
      rw [ih (fun x hx => h x (by simp [hx]))]

lemma dropWhile_append_all {α : Type} (p : α → Bool) (l₁ l₂ : List α)
    (h : ∀ x ∈ l₁, p x = true) :
    (l₁ ++ l₂).dropWhile p = l₂.dropWhile p := by
  induction l₁ with
  | nil => simp
  | cons a t ih =>
      simp only [List.cons_append, List.dropWhile_cons, h a (by simp), if_true]
      exact ih (fun x hx => h x (by simp [hx]))

lemma takeWhile_nil_all {α : Type} (p : α → Bool) (l : List α)
    (h : ∀ x ∈ l, p x = false) : l.takeWhile p = [] := by
  cases l with
  | nil => rfl
  | cons a t => simp [List.takeWhile_cons, h a (by simp)]

lemma dropWhile_all_false {α : Type} (p : α → Bool) (l : List α)
    (h : ∀ x ∈ l, p x = false) : l.dropWhile p = l := by
  cases l with
  | nil => rfl
  | cons a t => simp [List.dropWhile_cons, h a (by simp)]

/-- `strip()` decomposes any character list into leading whitespace, the
stripped core, and trailing whitespace. -/
lemma strip_decomp (L : List Char) :
    L = L.takeWhile pyWs ++ pyStrip L ++
      ((L.dropWhile pyWs).reverse.takeWhile pyWs).reverse := by
  unfold pyStrip
  conv_lhs => rw [← List.takeWhile_append_dropWhile pyWs L]
  rw [List.append_assoc]
  congr 1
  conv_lhs =>
    rw [← List.reverse_reverse (L.dropWhile pyWs),
      ← List.takeWhile_append_dropWhile pyWs (L.dropWhile pyWs).reverse,
      List.reverse_append]

/-- What the source's whole-string regex match forces of the already
stripped text. -/
lemma strip_shape (wl mid wr : List Char)
    (hwl : ∀ x ∈ wl, pyWs x = true) (hwr : ∀ x ∈ wr, pyWs x = true)
    (h1 : ∃ c t, mid = c :: t ∧ pyWs c = false)
    (h2 : ∃ c t, mid.reverse = c :: t ∧ pyWs c = false) :
    pyStrip (wl ++ mid ++ wr) = mid := by
  obtain ⟨c, t, hm, hc⟩ := h1
  obtain ⟨c2, t2, hm2, hc2⟩ := h2
  unfold pyStrip
  rw [List.append_assoc, dropWhile_append_all pyWs wl _ hwl, hm]
  rw [show ((c :: t) ++ wr).dropWhile pyWs = (c :: t) ++ wr by
    simp [List.dropWhile_cons, hc]]
  rw [← hm, List.reverse_append,
    dropWhile_append_all pyWs wr.reverse _ (fun x hx => hwr x (List.mem_reverse.mp hx)),
    hm2]
  rw [show (c2 :: t2).dropWhile pyWs = c2 :: t2 by simp [List.dropWhile_cons, hc2]]
  rw [← hm2, List.reverse_reverse]

/-- The multiplier table accepts exactly the four unit tokens. -/
lemma unitMult_cases (v : List Char) (m : Nat) (h : unitMult v = some m) :
    v = ['B'] ∨ v = ['K', 'B'] ∨ v = ['M', 'B'] ∨ v = ['G', 'B'] := by
  unfold unitMult at h
  split_ifs at h with h1 h2 h3 h4
  · exact Or.inl h1
  · exact Or.inr (Or.inl h2)
  · exact Or.inr (Or.inr (Or.inl h3))
  · exact Or.inr (Or.inr (Or.inr h4))

lemma map_eq_one {f : Char → Char} {u : List Char} {x : Char} (h : u.map f = [x]) :
    ∃ c, u = [c] ∧ f c = x := by
  cases u with
  | nil => simp at h
  | cons a t =>
      cases t with
      | nil => simp at h; exact ⟨a, rfl, h⟩
      | cons b t2 => simp at h

lemma map_eq_two {f : Char → Char} {u : List Char} {x y : Char}
    (h : u.map f = [x, y]) : ∃ c d, u = [c, d] ∧ f c = x ∧ f d = y := by
  cases u with
  | nil => simp at h
  | cons a t =>
      cases t with
      | nil => simp at h
      | cons b t2 =>
          cases t2 with
          | nil => simp at h; exact ⟨a, b, rfl, h.1, h.2⟩
          | cons e t3 => simp at h

/-- Shape of a raw unit token accepted by the table after uppercasing:
it ends in a non-whitespace character, and its uppercased characters are
neither digits nor whitespace. -/
lemma unit_shape (u : List Char) (mult : Nat) (hu : unitMult (pyUpper u) = some mult) :
    (∃ c t, u = t ++ [c] ∧ pyWs c = false) ∧
    (∀ x ∈ pyUpper u, pyDigit x = false ∧ pyWs x = false) := by
  have hlast : ∀ c : Char, asciiUpper c = 'B' → pyWs c = false := by
    intro c hc
    rw [← upper_pyWs, hc]
    rfl
  rcases unitMult_cases _ _ hu with h | h | h | h
  · obtain ⟨c, rfl, hc⟩ := map_eq_one h
    exact ⟨⟨c, [], rfl, hlast c hc⟩, by rw [h]; decide⟩
  · obtain ⟨c, d, rfl, _, hd⟩ := map_eq_two h
    exact ⟨⟨d, [c], rfl, hlast d hd⟩, by rw [h]; decide⟩
  · obtain ⟨c, d, rfl, _, hd⟩ := map_eq_two h
    exact ⟨⟨d, [c], rfl, hlast d hd⟩, by rw [h]; decide⟩
  · obtain ⟨c, d, rfl, _, hd⟩ := map_eq_two h
    exact ⟨⟨d, [c], rfl, hlast d hd⟩, by rw [h]; decide⟩

lemma parse_eval (L : List Char) :
    parse_size_to_bytes (String.mk L) = sizeMatch (pyUpper (pyStrip L)) := rfl

lemma sizeMatch_eval (raw : List Char) :
    sizeMatch raw =
      if (raw.takeWhile pyDigit).isEmpty then none
      else (unitMult ((raw.dropWhile pyDigit).dropWhile pyWs)).map
        (fun m => digitsVal (raw.takeWhile pyDigit) * m) := rfl

/-- Completeness half of C8: every string of the documented shape parses
to digits-value times the unit multiplier. -/
lemma size_parse_complete (wl ds wm u wr : List Char) (mult : Nat)
    (hwl : ∀ x ∈ wl, pyWs x = true) (hwm : ∀ x ∈ wm, pyWs x = true)
    (hwr : ∀ x ∈ wr, pyWs x = true) (hne : ds ≠ [])
    (hdig : ∀ x ∈ ds, asciiDigit x = true)
    (hu : unitMult (pyUpper u) = some mult) :
    parse_size_to_bytes (String.mk (wl ++ ds ++ wm ++ u ++ wr)) =
      some (digitsVal ds * mult) := by
  obtain ⟨d, ds', rfl⟩ : ∃ d t, ds = d :: t := by
    cases ds with
    | nil => exact absurd rfl hne
    | cons a t => exact ⟨a, t, rfl⟩
  obtain ⟨⟨cl, tl, hu1, hu2⟩, hUU⟩ := unit_shape u mult hu
  rw [parse_eval]
  rw [show wl ++ (d :: ds') ++ wm ++ u ++ wr = wl ++ ((d :: ds') ++ wm ++ u) ++ wr by
    simp [List.append_assoc]]
  rw [strip_shape wl _ wr hwl hwr
    ⟨d, ds' ++ wm ++ u, by simp [List.append_assoc], digit_not_ws (hdig d (by simp))⟩
    ⟨cl, tl.reverse ++ wm.reverse ++ (d :: ds').reverse, by
      rw [hu1]; simp [List.append_assoc], hu2⟩]
  have hupper : pyUpper ((d :: ds') ++ wm ++ u) =
      (d :: ds') ++ (wm ++ pyUpper u) := by
    unfold pyUpper
    rw [List.map_append, List.map_append,
      List.map_eq_map_iff.mpr (fun x hx => upper_fix_digit (hdig x hx)),
      List.map_eq_map_iff.mpr (fun x hx => upper_fix_ws (hwm x hx)),
      List.map_id', List.map_id', List.append_assoc]
  rw [hupper, sizeMatch_eval]
  have hdsall : ∀ x ∈ d :: ds', pyDigit x = true :=
    fun x hx => pyDigit_of_ascii (hdig x hx)
  have hrest : ∀ x ∈ wm ++ pyUpper u, pyDigit x = false := by
    intro x hx
    rcases List.mem_append.mp hx with hx | hx
    · exact ws_not_digit (hwm x hx)
    · exact (hUU x hx).1
  rw [takeWhile_append_all pyDigit _ _ hdsall, takeWhile_nil_all _ _ hrest,
    List.append_nil, dropWhile_append_all pyDigit _ _ hdsall,
    dropWhile_all_false _ _ hrest, dropWhile_append_all pyWs wm _ hwm,
    dropWhile_all_false _ _ (fun x hx => (hUU x hx).2), hu]
  rfl

/-- Soundness half of C8: over ASCII strings, a successful parse forces
the documented shape. -/
lemma size_parse_sound (s : String) (v : Nat) (hA : allAscii s)
    (h : parse_size_to_bytes s = some v) : specSizeShape s.data := by
  have hcompD : pyDigit ∘ asciiUpper = pyDigit := funext upper_pyDigit
  have hcompW : pyWs ∘ asciiUpper = pyWs := funext upper_pyWs
  have hD : (pyUpper (pyStrip s.data)).takeWhile pyDigit =
      pyUpper ((pyStrip s.data).takeWhile pyDigit) := by
    unfold pyUpper
    rw [List.takeWhile_map, hcompD]
  have hDrop : (pyUpper (pyStrip s.data)).dropWhile pyDigit =
      pyUpper ((pyStrip s.data).dropWhile pyDigit) := by
    unfold pyUpper
    rw [List.dropWhile_map, hcompD]
  have hR : ((pyUpper (pyStrip s.data)).dropWhile pyDigit).dropWhile pyWs =
      pyUpper (((pyStrip s.data).dropWhile pyDigit).dropWhile pyWs) := by
    rw [hDrop]
    unfold pyUpper
    rw [List.dropWhile_map, hcompW]
  have hp : (if ((pyUpper (pyStrip s.data)).takeWhile pyDigit).isEmpty then none
      else (unitMult (((pyUpper (pyStrip s.data)).dropWhile pyDigit).dropWhile pyWs)).map
        (fun m => digitsVal ((pyUpper (pyStrip s.data)).takeWhile pyDigit) * m)) =
      some v := h
  by_cases hemp : ((pyUpper (pyStrip s.data)).takeWhile pyDigit).isEmpty
  · rw [if_pos hemp] at hp
    exact absurd hp (by simp)
  · rw [if_neg hemp] at hp
    obtain ⟨mult, hum, -⟩ := Option.map_eq_some'.mp hp
    rw [hR] at hum
    refine ⟨s.data.takeWhile pyWs, (pyStrip s.data).takeWhile pyDigit,
      ((pyStrip s.data).dropWhile pyDigit).takeWhile pyWs,
      ((pyStrip s.data).dropWhile pyDigit).dropWhile pyWs,
      ((s.data.dropWhile pyWs).reverse.takeWhile pyWs).reverse,
      ?_, ?_, ?_, ?_, ?_, ?_, ?_⟩
    · conv_lhs => rw [strip_decomp s.data]
      conv_lhs =>
        rw [show pyStrip s.data =
          (pyStrip s.data).takeWhile pyDigit ++
            (((pyStrip s.data).dropWhile pyDigit).takeWhile pyWs ++
              ((pyStrip s.data).dropWhile pyDigit).dropWhile pyWs) from by
          rw [List.takeWhile_append_dropWhile pyWs ((pyStrip s.data).dropWhile pyDigit),
            List.takeWhile_append_dropWhile pyDigit (pyStrip s.data)]]
      simp [List.append_assoc]
    · exact fun x hx => List.mem_takeWhile_imp hx
    · exact fun x hx => List.mem_takeWhile_imp hx
    · exact fun x hx => List.mem_takeWhile_imp (List.mem_reverse.mp hx)
    · intro h0
      exact hemp (by rw [hD, h0]; rfl)
    · intro x hx
      have hxd : pyDigit x = true := List.mem_takeWhile_imp hx
      have hxs : x ∈ s.data := by
        have hxt : x ∈ pyStrip s.data := by
          rw [← List.takeWhile_append_dropWhile pyDigit (pyStrip s.data)]
          exact List.mem_append.mpr (Or.inl hx)
        rw [strip_decomp s.data]
        simp [List.mem_append, hxt]
      exact ascii_digit_of_pyDigit (hA x hxs) hxd
    · rcases unitMult_cases _ _ hum with h4 | h4 | h4 | h4 <;> simp [h4]

/-- C8 (amended): over ASCII strings the parser accepts exactly the
documented pattern — optional whitespace, one or more digits, optional
whitespace, a case-insensitive unit from B/KB/MB/GB, nothing trailing —
returning digits-value times the multiplier (zero included), and `None`
otherwise; the parser is a total function on strings (never raises).
The amendment: the source regex `\d` matches every Unicode Nd digit and
`int()` accepts them, so non-ASCII decimal digits are also accepted (see
the counterexample); the claim as stated holds on the ASCII domain. -/
theorem C8_size_parse_exact :
    (∀ wl ds wm u wr : List Char, ∀ mult : Nat,
      (∀ x ∈ wl, pyWs x = true) → (∀ x ∈ wm, pyWs x = true) →
      (∀ x ∈ wr, pyWs x = true) → ds ≠ [] → (∀ x ∈ ds, asciiDigit x = true) →
      unitMult (pyUpper u) = some mult →
      parse_size_to_bytes (String.mk (wl ++ ds ++ wm ++ u ++ wr)) =
        some (digitsVal ds * mult)) ∧
    (∀ s : String, ∀ v : Nat, allAscii s → parse_size_to_bytes s = some v →
      specSizeShape s.data) :=
  ⟨size_parse_complete, size_parse_sound⟩

/-- C8 witness: " 10 kb " parses to 10 × 1024 via the completeness half,
and the soundness half recovers the documented shape for it. -/
theorem C8_size_parse_exact_witness :
    parse_size_to_bytes (String.mk ([' '] ++ ['1', '0'] ++ [' '] ++ ['k', 'b'] ++ [' '])) =
      some (digitsVal ['1', '0'] * 1024) ∧ specSizeShape (" 10 kb ").data :=
  ⟨C8_size_parse_exact.1 [' '] ['1', '0'] [' '] ['k', 'b'] [' '] 1024
      (by decide) (by decide) (by decide) (by decide) (by decide) (by decide),
   C8_size_parse_exact.2 " 10 kb " 10240 (by unfold allAscii; decide) (by decide)⟩

end NApp
